import Mathlib

/-!
EUROBOT_Init.c : peripheral initialisation layer

Shallow embedding of `Software/Embedded Software/Misc/eurobot_lib/EUROBOT_Init.c`.

Every function of the file is `void`, reads no hardware state and only calls into the
STM32F10x standard peripheral library.  A function is therefore embedded as the
sequence (`List Call`) of library calls it issues, in program order, each with its
arguments.  The `*_StructInit` helpers of the library only fill a local record; they
are embedded as the record they produce.

The library headers (`stm32f10x.h`, `stm32f10x_conf.h`) are not part of the file.
Their `#define` constants and default records are collected in the structure
`StdPeriph`, over which every definition is parameterised; `stm32f10x` instantiates
it.  Peripheral pointers (`GPIO_TypeDef *`, `TIM_TypeDef *`, `USART_TypeDef *`) are
the addresses they hold, `uintN_t` parameters are natural numbers (the value
received by the callee), and the `enum` types are inductive types with the members
named in the doc comments of the file.
-/

namespace Eurobot

/-! ## Types of the peripheral library -/

/-- The type `FunctionalState` (members `ENABLE`, `DISABLE`). -/
inductive FunctionalState
  | DISABLE
  | ENABLE
  deriving DecidableEq, Repr

/-- The type `GPIOMode_TypeDef`, members as listed for `InitGPIO_Pin`. -/
inductive GPIOMode_TypeDef
  | GPIO_Mode_IN_FLOATING
  | GPIO_Mode_IPD
  | GPIO_Mode_IPU
  | GPIO_Mode_AIN
  | GPIO_Mode_Out_PP
  | GPIO_Mode_Out_OD
  | GPIO_Mode_AF_PP
  | GPIO_Mode_AF_OD
  deriving DecidableEq, Repr

/-- The type `GPIOSpeed_TypeDef`, members as listed for `InitGPIO_Pin`. -/
inductive GPIOSpeed_TypeDef
  | GPIO_Speed_10MHz
  | GPIO_Speed_2MHz
  | GPIO_Speed_50MHz
  deriving DecidableEq, Repr

/-- The type `EXTIMode_TypeDef`, members as listed for `InitEXTI`. -/
inductive EXTIMode_TypeDef
  | EXTI_Mode_Interrupt
  | EXTI_Mode_Event
  deriving DecidableEq, Repr

/-- The type `EXTITrigger_TypeDef`, members as listed for `InitEXTI`. -/
inductive EXTITrigger_TypeDef
  | EXTI_Trigger_Rising
  | EXTI_Trigger_Falling
  | EXTI_Trigger_Rising_Falling
  deriving DecidableEq, Repr

/-- Record applied by `GPIO_Init`. -/
structure GPIO_InitTypeDef where
  GPIO_Pin : Nat
  GPIO_Speed : GPIOSpeed_TypeDef
  GPIO_Mode : GPIOMode_TypeDef
  deriving DecidableEq, Repr

/-- Record applied by `TIM_TimeBaseInit`. -/
structure TIM_TimeBaseInitTypeDef where
  TIM_Prescaler : Nat
  TIM_CounterMode : Nat
  TIM_Period : Nat
  TIM_ClockDivision : Nat
  TIM_RepetitionCounter : Nat
  deriving DecidableEq, Repr

/-- Record applied by `TIM_OC1Init` .. `TIM_OC4Init`.  `InitTIM_OC` writes four of
its members; the other four keep what `TIM_OCStructInit` put there. -/
structure TIM_OCInitTypeDef where
  TIM_OCMode : Nat
  TIM_OutputState : Nat
  TIM_OutputNState : Nat
  TIM_Pulse : Nat
  TIM_OCPolarity : Nat
  TIM_OCNPolarity : Nat
  TIM_OCIdleState : Nat
  TIM_OCNIdleState : Nat
  deriving DecidableEq, Repr

/-- Record applied by `TIM_ICInit`. -/
structure TIM_ICInitTypeDef where
  TIM_Channel : Nat
  TIM_ICPolarity : Nat
  TIM_ICSelection : Nat
  TIM_ICPrescaler : Nat
  TIM_ICFilter : Nat
  deriving DecidableEq, Repr

/-- Record applied by `NVIC_Init`. -/
structure NVIC_InitTypeDef where
  NVIC_IRQChannel : Nat
  NVIC_IRQChannelPreemptionPriority : Nat
  NVIC_IRQChannelSubPriority : Nat
  NVIC_IRQChannelCmd : FunctionalState
  deriving DecidableEq, Repr

/-- Record applied by `EXTI_Init`. -/
structure EXTI_InitTypeDef where
  EXTI_Line : Nat
  EXTI_Mode : EXTIMode_TypeDef
  EXTI_Trigger : EXTITrigger_TypeDef
  EXTI_LineCmd : FunctionalState
  deriving DecidableEq, Repr

/-- Record applied by `USART_Init`.  `InitUSART` writes five of its members;
`USART_HardwareFlowControl` keeps what `USART_StructInit` put there. -/
structure USART_InitTypeDef where
  USART_BaudRate : Nat
  USART_WordLength : Nat
  USART_StopBits : Nat
  USART_Parity : Nat
  USART_Mode : Nat
  USART_HardwareFlowControl : Nat
  deriving DecidableEq, Repr

/-- One call into the peripheral library, with its arguments. -/
inductive Call
  | RCC_APB2PeriphClockCmd (RCC_APB2Periph : Nat) (NewState : FunctionalState)
  | RCC_APB1PeriphClockCmd (RCC_APB1Periph : Nat) (NewState : FunctionalState)
  | GPIO_Init (GPIOx : Nat) (GPIO_InitStruct : GPIO_InitTypeDef)
  | TIM_TimeBaseInit (TIMx : Nat) (TIM_TimeBaseInitStruct : TIM_TimeBaseInitTypeDef)
  | TIM_Cmd (TIMx : Nat) (NewState : FunctionalState)
  | TIM_OC1Init (TIMx : Nat) (TIM_OCInitStruct : TIM_OCInitTypeDef)
  | TIM_OC2Init (TIMx : Nat) (TIM_OCInitStruct : TIM_OCInitTypeDef)
  | TIM_OC3Init (TIMx : Nat) (TIM_OCInitStruct : TIM_OCInitTypeDef)
  | TIM_OC4Init (TIMx : Nat) (TIM_OCInitStruct : TIM_OCInitTypeDef)
  | TIM_ICInit (TIMx : Nat) (TIM_ICInitStruct : TIM_ICInitTypeDef)
  | NVIC_Init (NVIC_InitStruct : NVIC_InitTypeDef)
  | GPIO_EXTILineConfig (GPIO_PortSource : Nat) (GPIO_PinSource : Nat)
  | EXTI_Init (EXTI_InitStruct : EXTI_InitTypeDef)
  | USART_Init (USARTx : Nat) (USART_InitStruct : USART_InitTypeDef)
  | USART_Cmd (USARTx : Nat) (NewState : FunctionalState)
  deriving DecidableEq, Repr

/-- The constants and default records that `EUROBOT_Init.c` takes from the headers of
the peripheral library.  `EXTI_Line k` and `GPIO_PinSource k` stand for the sixteen
constants `EXTI_Line0` .. `EXTI_Line15` and `GPIO_PinSource0` .. `GPIO_PinSource15`. -/
structure StdPeriph where
  GPIOA : Nat
  GPIOB : Nat
  GPIOC : Nat
  GPIOD : Nat
  GPIOE : Nat
  RCC_APB2Periph_GPIOA : Nat
  RCC_APB2Periph_GPIOB : Nat
  RCC_APB2Periph_GPIOC : Nat
  RCC_APB2Periph_GPIOD : Nat
  RCC_APB2Periph_GPIOE : Nat
  RCC_APB2Periph_AFIO : Nat
  TIM1 : Nat
  TIM2 : Nat
  TIM3 : Nat
  TIM4 : Nat
  TIM5 : Nat
  TIM8 : Nat
  TIM15 : Nat
  TIM16 : Nat
  TIM17 : Nat
  RCC_APB2Periph_TIM1 : Nat
  RCC_APB1Periph_TIM2 : Nat
  RCC_APB1Periph_TIM3 : Nat
  RCC_APB1Periph_TIM4 : Nat
  RCC_APB1Periph_TIM5 : Nat
  RCC_APB2Periph_TIM8 : Nat
  RCC_APB2Periph_TIM15 : Nat
  RCC_APB2Periph_TIM16 : Nat
  RCC_APB2Periph_TIM17 : Nat
  TIM_Channel_1 : Nat
  TIM_Channel_2 : Nat
  TIM_Channel_3 : Nat
  TIM_Channel_4 : Nat
  EXTI_Line : Nat → Nat
  GPIO_PinSource : Nat → Nat
  USART1 : Nat
  USART2 : Nat
  USART3 : Nat
  RCC_APB2Periph_USART1 : Nat
  RCC_APB1Periph_USART2 : Nat
  RCC_APB1Periph_USART3 : Nat
  GPIO_Pin_2 : Nat
  GPIO_Pin_3 : Nat
  GPIO_Pin_9 : Nat
  GPIO_Pin_10 : Nat
  GPIO_Pin_11 : Nat
  USART_WordLength_8b : Nat
  USART_StopBits_1 : Nat
  USART_Parity_No : Nat
  GPIO_StructInit : GPIO_InitTypeDef
  TIM_TimeBaseStructInit : TIM_TimeBaseInitTypeDef
  TIM_OCStructInit : TIM_OCInitTypeDef
  TIM_ICStructInit : TIM_ICInitTypeDef
  USART_StructInit : USART_InitTypeDef

/-- The values of the STM32F10x standard peripheral library (V3.5.0): peripheral base
addresses of `stm32f10x.h`, clock bits of `stm32f10x_rcc.h`, pin masks of
`stm32f10x_gpio.h`, channels of `stm32f10x_tim.h`, lines of `stm32f10x_exti.h`,
frame constants of `stm32f10x_usart.h`, and the records written by the `*_StructInit`
functions. -/
def stm32f10x : StdPeriph where
  GPIOA := 0x40010800
  GPIOB := 0x40010C00
  GPIOC := 0x40011000
  GPIOD := 0x40011400
  GPIOE := 0x40011800
  RCC_APB2Periph_GPIOA := 0x00000004
  RCC_APB2Periph_GPIOB := 0x00000008
  RCC_APB2Periph_GPIOC := 0x00000010
  RCC_APB2Periph_GPIOD := 0x00000020
  RCC_APB2Periph_GPIOE := 0x00000040
  RCC_APB2Periph_AFIO := 0x00000001
  TIM1 := 0x40012C00
  TIM2 := 0x40000000
  TIM3 := 0x40000400
  TIM4 := 0x40000800
  TIM5 := 0x40000C00
  TIM8 := 0x40013400
  TIM15 := 0x40014000
  TIM16 := 0x40014400
  TIM17 := 0x40014800
  RCC_APB2Periph_TIM1 := 0x00000800
  RCC_APB1Periph_TIM2 := 0x00000001
  RCC_APB1Periph_TIM3 := 0x00000002
  RCC_APB1Periph_TIM4 := 0x00000004
  RCC_APB1Periph_TIM5 := 0x00000008
  RCC_APB2Periph_TIM8 := 0x00002000
  RCC_APB2Periph_TIM15 := 0x00010000
  RCC_APB2Periph_TIM16 := 0x00020000
  RCC_APB2Periph_TIM17 := 0x00040000
  TIM_Channel_1 := 0x0000
  TIM_Channel_2 := 0x0004
  TIM_Channel_3 := 0x0008
  TIM_Channel_4 := 0x000C
  EXTI_Line := fun k => 2 ^ k
  GPIO_PinSource := fun k => k
  USART1 := 0x40013800
  USART2 := 0x40004400
  USART3 := 0x40004800
  RCC_APB2Periph_USART1 := 0x00004000
  RCC_APB1Periph_USART2 := 0x00020000
  RCC_APB1Periph_USART3 := 0x00040000
  GPIO_Pin_2 := 0x0004
  GPIO_Pin_3 := 0x0008
  GPIO_Pin_9 := 0x0200
  GPIO_Pin_10 := 0x0400
  GPIO_Pin_11 := 0x0800
  USART_WordLength_8b := 0x0000
  USART_StopBits_1 := 0x0000
  USART_Parity_No := 0x0000
  GPIO_StructInit :=
    { GPIO_Pin := 0xFFFF
      GPIO_Speed := GPIOSpeed_TypeDef.GPIO_Speed_2MHz
      GPIO_Mode := GPIOMode_TypeDef.GPIO_Mode_IN_FLOATING }
  TIM_TimeBaseStructInit :=
    { TIM_Prescaler := 0x0000
      TIM_CounterMode := 0x0000
      TIM_Period := 0xFFFF
      TIM_ClockDivision := 0x0000
      TIM_RepetitionCounter := 0x0000 }
  TIM_OCStructInit :=
    { TIM_OCMode := 0x0000
      TIM_OutputState := 0x0000
      TIM_OutputNState := 0x0000
      TIM_Pulse := 0x0000
      TIM_OCPolarity := 0x0000
      TIM_OCNPolarity := 0x0000
      TIM_OCIdleState := 0x0000
      TIM_OCNIdleState := 0x0000 }
  TIM_ICStructInit :=
    { TIM_Channel := 0x0000
      TIM_ICPolarity := 0x0000
      TIM_ICSelection := 0x0001
      TIM_ICPrescaler := 0x0000
      TIM_ICFilter := 0x0000 }
  USART_StructInit :=
    { USART_BaudRate := 9600
      USART_WordLength := 0x0000
      USART_StopBits := 0x0000
      USART_Parity := 0x0000
      USART_Mode := 0x000C
      USART_HardwareFlowControl := 0x0000 }

/-! ## The functions of `EUROBOT_Init.c` -/

open Call FunctionalState GPIOMode_TypeDef GPIOSpeed_TypeDef

/-- `InitGPIO_Pin` (lines 45-72): port clock by an `if`/`else if` chain over the five
ports, the AFIO clock for the two alternate-function modes, then `GPIO_Init` with the
record filled from the three arguments. -/
def InitGPIO_Pin (V : StdPeriph) (GPIOx : Nat) (GPIO_Pin : Nat)
    (GPIO_Mode : GPIOMode_TypeDef) (GPIO_Speed : GPIOSpeed_TypeDef) : List Call :=
  (if GPIOx = V.GPIOA then [RCC_APB2PeriphClockCmd V.RCC_APB2Periph_GPIOA ENABLE]
   else if GPIOx = V.GPIOB then [RCC_APB2PeriphClockCmd V.RCC_APB2Periph_GPIOB ENABLE]
   else if GPIOx = V.GPIOC then [RCC_APB2PeriphClockCmd V.RCC_APB2Periph_GPIOC ENABLE]
   else if GPIOx = V.GPIOD then [RCC_APB2PeriphClockCmd V.RCC_APB2Periph_GPIOD ENABLE]
   else if GPIOx = V.GPIOE then [RCC_APB2PeriphClockCmd V.RCC_APB2Periph_GPIOE ENABLE]
   else [])
  ++ (if GPIO_Mode = GPIO_Mode_AF_PP ∨ GPIO_Mode = GPIO_Mode_AF_OD
      then [RCC_APB2PeriphClockCmd V.RCC_APB2Periph_AFIO ENABLE] else [])
  ++ [GPIO_Init GPIOx
        { V.GPIO_StructInit with
          GPIO_Pin := GPIO_Pin
          GPIO_Mode := GPIO_Mode
          GPIO_Speed := GPIO_Speed }]

/-- `InitTIM_TimeBase` (lines 114-150): timer clock by an `if`/`else if` chain over
nine timers, `TIM_TimeBaseInit` with the record filled from the five arguments, then
`TIM_Cmd(TIMx, ENABLE)`. -/
def InitTIM_TimeBase (V : StdPeriph) (TIMx : Nat) (TIM_Prescaler TIM_Period TIM_CounterMode
    TIM_ClockDivision TIM_RepetitionCounter : Nat) : List Call :=
  (if TIMx = V.TIM1 then [RCC_APB2PeriphClockCmd V.RCC_APB2Periph_TIM1 ENABLE]
   else if TIMx = V.TIM2 then [RCC_APB1PeriphClockCmd V.RCC_APB1Periph_TIM2 ENABLE]
   else if TIMx = V.TIM3 then [RCC_APB1PeriphClockCmd V.RCC_APB1Periph_TIM3 ENABLE]
   else if TIMx = V.TIM4 then [RCC_APB1PeriphClockCmd V.RCC_APB1Periph_TIM4 ENABLE]
   else if TIMx = V.TIM5 then [RCC_APB1PeriphClockCmd V.RCC_APB1Periph_TIM5 ENABLE]
   else if TIMx = V.TIM8 then [RCC_APB2PeriphClockCmd V.RCC_APB2Periph_TIM8 ENABLE]
   else if TIMx = V.TIM15 then [RCC_APB2PeriphClockCmd V.RCC_APB2Periph_TIM15 ENABLE]
   else if TIMx = V.TIM16 then [RCC_APB2PeriphClockCmd V.RCC_APB2Periph_TIM16 ENABLE]
   else if TIMx = V.TIM17 then [RCC_APB2PeriphClockCmd V.RCC_APB2Periph_TIM17 ENABLE]
   else [])
  ++ [TIM_TimeBaseInit TIMx
        { V.TIM_TimeBaseStructInit with
          TIM_Prescaler := TIM_Prescaler
          TIM_Period := TIM_Period
          TIM_CounterMode := TIM_CounterMode
          TIM_ClockDivision := TIM_ClockDivision
          TIM_RepetitionCounter := TIM_RepetitionCounter }]
  ++ [TIM_Cmd TIMx ENABLE]

/-- The record `InitTIM_OC` fills (lines 190-203). -/
def InitTIM_OC_record (V : StdPeriph) (output_state oc_mode pulse polarity : Nat) :
    TIM_OCInitTypeDef :=
  { V.TIM_OCStructInit with
    TIM_OutputState := output_state
    TIM_OCMode := oc_mode
    TIM_Pulse := pulse
    TIM_OCPolarity := polarity }

/-- `InitTIM_OC` (lines 187-213): four independent `if`s on the channel, then
`TIM_Cmd(TIMx, ENABLE)`. -/
def InitTIM_OC (V : StdPeriph) (TIMx : Nat) (channel output_state oc_mode pulse polarity : Nat) :
    List Call :=
  (if channel = V.TIM_Channel_1
    then [TIM_OC1Init TIMx (InitTIM_OC_record V output_state oc_mode pulse polarity)] else [])
  ++ (if channel = V.TIM_Channel_2
    then [TIM_OC2Init TIMx (InitTIM_OC_record V output_state oc_mode pulse polarity)] else [])
  ++ (if channel = V.TIM_Channel_3
    then [TIM_OC3Init TIMx (InitTIM_OC_record V output_state oc_mode pulse polarity)] else [])
  ++ (if channel = V.TIM_Channel_4
    then [TIM_OC4Init TIMx (InitTIM_OC_record V output_state oc_mode pulse polarity)] else [])
  ++ [TIM_Cmd TIMx ENABLE]

/-- `InitTIM_IC` (lines 248-273): one `TIM_ICInit`, then `TIM_Cmd(TIMx, ENABLE)`. -/
def InitTIM_IC (V : StdPeriph) (TIMx : Nat) (channel selection prescaler filter polarity : Nat) :
    List Call :=
  [TIM_ICInit TIMx
      { V.TIM_ICStructInit with
        TIM_Channel := channel
        TIM_ICSelection := selection
        TIM_ICPrescaler := prescaler
        TIM_ICFilter := filter
        TIM_ICPolarity := polarity },
   TIM_Cmd TIMx ENABLE]

/-- `InitNVICChannel` (lines 300-310): one `NVIC_Init`. -/
def InitNVICChannel (NVIC_Channel NVIC_PreemptionPriority NVIC_SubPriority : Nat)
    (NVIC_ChannelCmd : FunctionalState) : List Call :=
  [NVIC_Init
      { NVIC_IRQChannel := NVIC_Channel
        NVIC_IRQChannelPreemptionPriority := NVIC_PreemptionPriority
        NVIC_IRQChannelSubPriority := NVIC_SubPriority
        NVIC_IRQChannelCmd := NVIC_ChannelCmd }]

/-- One line of the dispatch of `InitEXTI`:
`if (Line == EXTI_Line<k>) GPIO_EXTILineConfig(GPIO_PortSourceX, GPIO_PinSource<k>);` -/
def InitEXTI_route (V : StdPeriph) (GPIO_PortSourceX Line k : Nat) : List Call :=
  if Line = V.EXTI_Line k then [GPIO_EXTILineConfig GPIO_PortSourceX (V.GPIO_PinSource k)] else []

/-- `InitEXTI` (lines 332-359): sixteen independent `if`s on the line, then `EXTI_Init`
with the record filled from the four arguments. -/
def InitEXTI (V : StdPeriph) (GPIO_PortSourceX Line : Nat) (Mode : EXTIMode_TypeDef)
    (Trigger : EXTITrigger_TypeDef) (LineCmd : FunctionalState) : List Call :=
  InitEXTI_route V GPIO_PortSourceX Line 0
  ++ InitEXTI_route V GPIO_PortSourceX Line 1
  ++ InitEXTI_route V GPIO_PortSourceX Line 2
  ++ InitEXTI_route V GPIO_PortSourceX Line 3
  ++ InitEXTI_route V GPIO_PortSourceX Line 4
  ++ InitEXTI_route V GPIO_PortSourceX Line 5
  ++ InitEXTI_route V GPIO_PortSourceX Line 6
  ++ InitEXTI_route V GPIO_PortSourceX Line 7
  ++ InitEXTI_route V GPIO_PortSourceX Line 8
  ++ InitEXTI_route V GPIO_PortSourceX Line 9
  ++ InitEXTI_route V GPIO_PortSourceX Line 10
  ++ InitEXTI_route V GPIO_PortSourceX Line 11
  ++ InitEXTI_route V GPIO_PortSourceX Line 12
  ++ InitEXTI_route V GPIO_PortSourceX Line 13
  ++ InitEXTI_route V GPIO_PortSourceX Line 14
  ++ InitEXTI_route V GPIO_PortSourceX Line 15
  ++ [EXTI_Init
        { EXTI_Line := Line
          EXTI_Mode := Mode
          EXTI_Trigger := Trigger
          EXTI_LineCmd := LineCmd }]

/-- Signature of the pin-initialisation function that `InitUSART` calls under the name
`InitGPIOPin`.  The file defines `InitGPIO_Pin` and nothing called `InitGPIOPin`, so
the callee is a parameter of `InitUSART`; with `InitGPIO_Pin V` for it the calls are
the ones of the pin function of this file. -/
abbrev PinInit := Nat → Nat → GPIOMode_TypeDef → GPIOSpeed_TypeDef → List Call

/-- `InitUSART` (lines 387-421): three independent `if`s, each enabling the clock of
one UART and initialising its Tx and Rx pins, then `USART_Init` with the record filled
from the five arguments, then `USART_Cmd(USARTx, ENABLE)`. -/
def InitUSART (V : StdPeriph) (InitGPIOPin : PinInit) (USARTx : Nat)
    (Mode BaudRate WordLength StopBits Parity : Nat) : List Call :=
  (if USARTx = V.USART1 then
      [RCC_APB2PeriphClockCmd V.RCC_APB2Periph_USART1 ENABLE]
      ++ InitGPIOPin V.GPIOA V.GPIO_Pin_9 GPIO_Mode_AF_PP GPIO_Speed_50MHz
      ++ InitGPIOPin V.GPIOA V.GPIO_Pin_10 GPIO_Mode_IN_FLOATING GPIO_Speed_50MHz
    else [])
  ++ (if USARTx = V.USART2 then
      [RCC_APB1PeriphClockCmd V.RCC_APB1Periph_USART2 ENABLE]
      ++ InitGPIOPin V.GPIOA V.GPIO_Pin_2 GPIO_Mode_AF_PP GPIO_Speed_50MHz
      ++ InitGPIOPin V.GPIOA V.GPIO_Pin_3 GPIO_Mode_IN_FLOATING GPIO_Speed_50MHz
    else [])
  ++ (if USARTx = V.USART3 then
      [RCC_APB1PeriphClockCmd V.RCC_APB1Periph_USART3 ENABLE]
      ++ InitGPIOPin V.GPIOB V.GPIO_Pin_10 GPIO_Mode_AF_PP GPIO_Speed_50MHz
      ++ InitGPIOPin V.GPIOB V.GPIO_Pin_11 GPIO_Mode_IN_FLOATING GPIO_Speed_50MHz
    else [])
  ++ [USART_Init USARTx
        { V.USART_StructInit with
          USART_BaudRate := BaudRate
          USART_WordLength := WordLength
          USART_StopBits := StopBits
          USART_Parity := Parity
          USART_Mode := Mode }]
  ++ [USART_Cmd USARTx ENABLE]

/-- `InitDefaultUSART` (lines 437-440). -/
def InitDefaultUSART (V : StdPeriph) (InitGPIOPin : PinInit) (USARTx : Nat)
    (Mode BaudRate : Nat) : List Call :=
  InitUSART V InitGPIOPin USARTx Mode BaudRate
    V.USART_WordLength_8b V.USART_StopBits_1 V.USART_Parity_No

/-! ## Vocabulary of the statements -/

/-- The five ports that `InitGPIO_Pin` names, each with its APB2 clock bit. -/
def StdPeriph.ports (V : StdPeriph) : List (Nat × Nat) :=
  [(V.GPIOA, V.RCC_APB2Periph_GPIOA),
   (V.GPIOB, V.RCC_APB2Periph_GPIOB),
   (V.GPIOC, V.RCC_APB2Periph_GPIOC),
   (V.GPIOD, V.RCC_APB2Periph_GPIOD),
   (V.GPIOE, V.RCC_APB2Periph_GPIOE)]

/-- The clock-enable calls of the five ports. -/
def StdPeriph.portClocks (V : StdPeriph) : List Call :=
  V.ports.map (fun q => RCC_APB2PeriphClockCmd q.2 ENABLE)

/-- The port clock call that the table of the five ports gives for a port address: the
call of the first port of the table with that address, none for an address that is not
in the table. -/
def StdPeriph.portClockOf (V : StdPeriph) (GPIOx : Nat) : List Call :=
  match V.ports.find? (fun q => decide (GPIOx = q.1)) with
  | some q => [RCC_APB2PeriphClockCmd q.2 ENABLE]
  | none => []

/-- The call that enables the alternate-function-I/O clock. -/
def StdPeriph.afioClock (V : StdPeriph) : Call :=
  RCC_APB2PeriphClockCmd V.RCC_APB2Periph_AFIO ENABLE

/-- The nine timers that `InitTIM_TimeBase` names, each with the clock-enable call of
its own bus and bit: TIM1, TIM8, TIM15, TIM16, TIM17 on APB2 and TIM2 .. TIM5 on
APB1. -/
def StdPeriph.timers (V : StdPeriph) : List (Nat × Call) :=
  [(V.TIM1, RCC_APB2PeriphClockCmd V.RCC_APB2Periph_TIM1 ENABLE),
   (V.TIM2, RCC_APB1PeriphClockCmd V.RCC_APB1Periph_TIM2 ENABLE),
   (V.TIM3, RCC_APB1PeriphClockCmd V.RCC_APB1Periph_TIM3 ENABLE),
   (V.TIM4, RCC_APB1PeriphClockCmd V.RCC_APB1Periph_TIM4 ENABLE),
   (V.TIM5, RCC_APB1PeriphClockCmd V.RCC_APB1Periph_TIM5 ENABLE),
   (V.TIM8, RCC_APB2PeriphClockCmd V.RCC_APB2Periph_TIM8 ENABLE),
   (V.TIM15, RCC_APB2PeriphClockCmd V.RCC_APB2Periph_TIM15 ENABLE),
   (V.TIM16, RCC_APB2PeriphClockCmd V.RCC_APB2Periph_TIM16 ENABLE),
   (V.TIM17, RCC_APB2PeriphClockCmd V.RCC_APB2Periph_TIM17 ENABLE)]

/-- The timer and record of a `TIM_TimeBaseInit` call. -/
def Call.timeBaseInit? : Call → Option (Nat × TIM_TimeBaseInitTypeDef)
  | TIM_TimeBaseInit TIMx r => some (TIMx, r)
  | _ => none

/-- The three UARTs that `InitUSART` names. -/
def StdPeriph.usarts (V : StdPeriph) : List Nat :=
  [V.USART1, V.USART2, V.USART3]

/-- The four channel constants that `InitTIM_OC` dispatches on. -/
def StdPeriph.channels (V : StdPeriph) : List Nat :=
  [V.TIM_Channel_1, V.TIM_Channel_2, V.TIM_Channel_3, V.TIM_Channel_4]

/-- The sixteen line constants `EXTI_Line0` .. `EXTI_Line15`. -/
def StdPeriph.lines (V : StdPeriph) : List Nat :=
  (List.range 16).map V.EXTI_Line

/-- Whether a call is one of `TIM_OC1Init` .. `TIM_OC4Init`. -/
def Call.isOCInit : Call → Bool
  | TIM_OC1Init _ _ => true
  | TIM_OC2Init _ _ => true
  | TIM_OC3Init _ _ => true
  | TIM_OC4Init _ _ => true
  | _ => false

/-- The port and record of a `GPIO_Init` call. -/
def Call.gpioInit? : Call → Option (Nat × GPIO_InitTypeDef)
  | GPIO_Init GPIOx r => some (GPIOx, r)
  | _ => none

/-- Whether a call is a clock command, on either bus. -/
def Call.isClockCmd : Call → Bool
  | RCC_APB2PeriphClockCmd _ _ => true
  | RCC_APB1PeriphClockCmd _ _ => true
  | _ => false

/-- Whether a call is the routing call `GPIO_EXTILineConfig`. -/
def Call.isRoute : Call → Bool
  | GPIO_EXTILineConfig _ _ => true
  | _ => false

/-! ## The peripheral state -/

/-- Modelled from the spec: the peripheral state, which is not in `EUROBOT_Init.c`: the
"clock-enable bits" of the two buses and the "applied configuration records", one for
each place of the hardware that a library call configures (`none` while nothing has
been applied there). -/
structure PeriphState (Slot : Type) where
  APB1ENR : Nat
  APB2ENR : Nat
  applied : Slot → Option Call

/-- Modelled from the spec: the hardware under the library, which is not in
`EUROBOT_Init.c`.  A clock domain is "a gating circuit that must be enabled before a
peripheral's registers respond to reads/writes": `responds apb1 apb2 c` says whether the
peripheral that the configuration call `c` operates on responds when the clock-enable
bits of the two buses are `apb1` and `apb2`.  `slot c` is the place of the peripheral
state where the record of `c` is applied. -/
structure Hardware (Slot : Type) where
  responds : Nat → Nat → Call → Bool
  slot : Call → Slot

/-- Modelled from the spec: the clock-enable bits of a bus after a clock command with
the given mask: `ENABLE` sets the bits of the mask, `DISABLE` clears them. -/
def clockBits (enr mask : Nat) : FunctionalState → Nat
  | ENABLE => enr ||| mask
  | DISABLE => enr ^^^ (enr &&& mask)

/-- Modelled from the spec: the peripheral state after one library call.  A clock
command changes the clock-enable bits of its bus.  A configuration call applies its
record at its place when the peripheral responds; on an unclocked peripheral it is a
no-op. -/
def Hardware.step {Slot : Type} [DecidableEq Slot] (H : Hardware Slot) (s : PeriphState Slot) :
    Call → PeriphState Slot
  | RCC_APB2PeriphClockCmd m st => { s with APB2ENR := clockBits s.APB2ENR m st }
  | RCC_APB1PeriphClockCmd m st => { s with APB1ENR := clockBits s.APB1ENR m st }
  | c =>
    if H.responds s.APB1ENR s.APB2ENR c then
      { s with applied := Function.update s.applied (H.slot c) (some c) }
    else s

/-- Modelled from the spec: the peripheral state after a sequence of library calls,
made in order from the state `s`. -/
def Hardware.run {Slot : Type} [DecidableEq Slot] (H : Hardware Slot) (s : PeriphState Slot)
    (calls : List Call) : PeriphState Slot :=
  calls.foldl H.step s

/-- The applied records after applying the records of `ws` in order, each at its
place; every other place is left as it was. -/
def programAll {Reg Val : Type} [DecidableEq Reg] (s : Reg → Val) (ws : List (Reg × Val)) :
    Reg → Val :=
  ws.foldl (fun st w => Function.update st w.1 w.2) s

/-- Whether a call is a clock command that enables. -/
def Call.isEnableClock : Call → Bool
  | RCC_APB2PeriphClockCmd _ ENABLE => true
  | RCC_APB1PeriphClockCmd _ ENABLE => true
  | _ => false

/-- Whether a call leaves the clock-enable bits `apb1`, `apb2` as they are. -/
def Call.quietAt (apb1 apb2 : Nat) : Call → Bool
  | RCC_APB2PeriphClockCmd m st => decide (clockBits apb2 m st = apb2)
  | RCC_APB1PeriphClockCmd m st => decide (clockBits apb1 m st = apb1)
  | _ => true

/-- The records that the configuration calls of a sequence apply, with their places,
while the clock-enable bits are `apb1`, `apb2`. -/
def Hardware.appliedAt {Slot : Type} (H : Hardware Slot) (apb1 apb2 : Nat)
    (calls : List Call) : List (Slot × Option Call) :=
  calls.filterMap
    (fun c => if !c.isClockCmd && H.responds apb1 apb2 c then some (H.slot c, some c) else none)

/-- The place of the record of a call in the hardware of the instances: one place for
each library function and each peripheral, interrupt channel, pin source or line. -/
def Call.place : Call → Nat × Nat
  | RCC_APB2PeriphClockCmd _ _ => (0, 0)
  | RCC_APB1PeriphClockCmd _ _ => (0, 1)
  | GPIO_Init GPIOx _ => (1, GPIOx)
  | TIM_TimeBaseInit TIMx _ => (2, TIMx)
  | TIM_Cmd TIMx _ => (3, TIMx)
  | TIM_OC1Init TIMx _ => (4, TIMx)
  | TIM_OC2Init TIMx _ => (5, TIMx)
  | TIM_OC3Init TIMx _ => (6, TIMx)
  | TIM_OC4Init TIMx _ => (7, TIMx)
  | TIM_ICInit TIMx _ => (8, TIMx)
  | NVIC_Init r => (9, r.NVIC_IRQChannel)
  | GPIO_EXTILineConfig _ pinSource => (10, pinSource)
  | EXTI_Init r => (11, r.EXTI_Line)
  | USART_Init USARTx _ => (12, USARTx)
  | USART_Cmd USARTx _ => (13, USARTx)

/-- Modelled from the spec: a hardware for the instances.  A port of the table of the
five ports responds to `GPIO_Init` when all bits of its clock mask are enabled on APB2;
every other peripheral responds always. -/
def StdPeriph.gatedPorts (V : StdPeriph) : Hardware (Nat × Nat) where
  responds := fun _ apb2 c =>
    match c with
    | GPIO_Init GPIOx _ =>
      match V.ports.find? (fun q => decide (GPIOx = q.1)) with
      | some q => decide (apb2 &&& q.2 = q.2)
      | none => true
    | _ => true
  slot := Call.place

/-- The peripheral state with no clock enabled and nothing applied. -/
def PeriphState.reset : PeriphState (Nat × Nat) :=
  { APB1ENR := 0, APB2ENR := 0, applied := fun _ => none }

/-! ## Theorems -/

/-- The calls of `InitGPIO_Pin` for any port address: the port clock call of the table
of the five ports (none for an unmapped address), the AFIO clock-enable call for the
two alternate-function modes, then `GPIO_Init` with the three arguments. -/
theorem InitGPIO_Pin_trace (V : StdPeriph) (GPIOx GPIO_Pin : Nat)
    (GPIO_Mode : GPIOMode_TypeDef) (GPIO_Speed : GPIOSpeed_TypeDef) :
    InitGPIO_Pin V GPIOx GPIO_Pin GPIO_Mode GPIO_Speed
      = V.portClockOf GPIOx
        ++ (if GPIO_Mode = GPIO_Mode_AF_PP ∨ GPIO_Mode = GPIO_Mode_AF_OD
            then [V.afioClock] else [])
        ++ [GPIO_Init GPIOx ⟨GPIO_Pin, GPIO_Speed, GPIO_Mode⟩] := by
  unfold InitGPIO_Pin StdPeriph.portClockOf StdPeriph.ports StdPeriph.afioClock
  by_cases ha : GPIOx = V.GPIOA
  · rw [if_pos ha, List.find?_cons_of_pos (p := fun q : Nat × Nat => decide (GPIOx = q.1))
      _ (decide_eq_true ha)]
  · rw [if_neg ha, List.find?_cons_of_neg (p := fun q : Nat × Nat => decide (GPIOx = q.1))
      _ (fun h => ha (of_decide_eq_true h))]
    by_cases hb : GPIOx = V.GPIOB
    · rw [if_pos hb, List.find?_cons_of_pos (p := fun q : Nat × Nat => decide (GPIOx = q.1))
        _ (decide_eq_true hb)]
    · rw [if_neg hb, List.find?_cons_of_neg (p := fun q : Nat × Nat => decide (GPIOx = q.1))
        _ (fun h => hb (of_decide_eq_true h))]
      by_cases hc : GPIOx = V.GPIOC
      · rw [if_pos hc, List.find?_cons_of_pos (p := fun q : Nat × Nat => decide (GPIOx = q.1))
          _ (decide_eq_true hc)]
      · rw [if_neg hc, List.find?_cons_of_neg (p := fun q : Nat × Nat => decide (GPIOx = q.1))
          _ (fun h => hc (of_decide_eq_true h))]
        by_cases hd : GPIOx = V.GPIOD
        · rw [if_pos hd, List.find?_cons_of_pos (p := fun q : Nat × Nat => decide (GPIOx = q.1))
            _ (decide_eq_true hd)]
        · rw [if_neg hd, List.find?_cons_of_neg (p := fun q : Nat × Nat => decide (GPIOx = q.1))
            _ (fun h => hd (of_decide_eq_true h))]
          by_cases he : GPIOx = V.GPIOE
          · rw [if_pos he, List.find?_cons_of_pos (p := fun q : Nat × Nat => decide (GPIOx = q.1))
              _ (decide_eq_true he)]
          · rw [if_neg he, List.find?_cons_of_neg (p := fun q : Nat × Nat => decide (GPIOx = q.1))
              _ (fun h => he (of_decide_eq_true h))]
            rfl

/-- The port clock call of a port of the table, the five addresses being pairwise
distinct, is the call with the clock bit of that port. -/
theorem portClockOf_listed (V : StdPeriph) (hPorts : (V.ports.map Prod.fst).Nodup)
    (port bit : Nat) (hp : (port, bit) ∈ V.ports) :
    V.portClockOf port = [RCC_APB2PeriphClockCmd bit ENABLE] := by
  simp only [StdPeriph.ports, List.map_cons, List.map_nil, List.nodup_cons, List.mem_cons,
    List.mem_singleton, List.not_mem_nil, not_or, or_false, List.nodup_nil, and_true,
    not_false_eq_true] at hPorts
  obtain ⟨⟨ab, ac, ad, ae⟩, ⟨bc, bd, be⟩, ⟨cd, ce⟩, de⟩ := hPorts
  have ba := Ne.symm ab
  have ca := Ne.symm ac
  have da := Ne.symm ad
  have ea := Ne.symm ae
  have cb := Ne.symm bc
  have db := Ne.symm bd
  have eb := Ne.symm be
  have dc := Ne.symm cd
  have ec := Ne.symm ce
  have ed := Ne.symm de
  simp only [StdPeriph.ports, List.mem_cons, List.mem_singleton, List.not_mem_nil, or_false,
    Prod.mk.injEq] at hp
  rcases hp with h | h | h | h | h <;>
    (obtain ⟨rfl, rfl⟩ := h
     simp [StdPeriph.portClockOf, StdPeriph.ports, List.find?, *])

/-- The port clock call of any address, if there is one, is one of the five port clock
calls and is a clock command. -/
theorem portClockOf_mem (V : StdPeriph) (GPIOx : Nat) :
    ∀ c ∈ V.portClockOf GPIOx, c ∈ V.portClocks ∧ c.isClockCmd = true := by
  intro c hc
  cases hfind : V.ports.find? (fun q => decide (GPIOx = q.1)) with
  | none =>
    simp only [StdPeriph.portClockOf, hfind, List.not_mem_nil] at hc
  | some q =>
    simp only [StdPeriph.portClockOf, hfind, List.mem_singleton] at hc
    subst hc
    exact ⟨List.mem_map.mpr ⟨q, List.mem_of_find?_eq_some hfind, rfl⟩, rfl⟩

/-- The clock commands among the calls of `InitGPIO_Pin`: the port clock call, then the
AFIO clock-enable call for the two alternate-function modes. -/
theorem InitGPIO_Pin_clock_commands (V : StdPeriph) (GPIOx GPIO_Pin : Nat)
    (GPIO_Mode : GPIOMode_TypeDef) (GPIO_Speed : GPIOSpeed_TypeDef) :
    (InitGPIO_Pin V GPIOx GPIO_Pin GPIO_Mode GPIO_Speed).filter Call.isClockCmd
      = V.portClockOf GPIOx
        ++ (if GPIO_Mode = GPIO_Mode_AF_PP ∨ GPIO_Mode = GPIO_Mode_AF_OD
            then [V.afioClock] else []) := by
  have hall : (V.portClockOf GPIOx).filter Call.isClockCmd = V.portClockOf GPIOx :=
    List.filter_eq_self.mpr (fun c hc => (portClockOf_mem V GPIOx c hc).2)
  rw [InitGPIO_Pin_trace, List.filter_append, List.filter_append, hall]
  split_ifs <;> simp [List.filter, Call.isClockCmd, StdPeriph.afioClock]

/-- C1. For each of the five ports GPIOA .. GPIOE (pairwise distinct addresses, clock
bits pairwise distinct and distinct from the AFIO bit) and every pin mask, mode and
speed, the calls of `InitGPIO_Pin` are exactly: the clock-enable call of that port,
the AFIO clock-enable call when the mode is an alternate-function one, and `GPIO_Init`.
So among all its clock commands exactly one is a port clock-enable call, the one of
that port, and the clock-enable call of none of the other four ports is issued. -/
theorem InitGPIO_Pin_enables_own_port_clock (V : StdPeriph)
    (hPorts : (V.ports.map Prod.fst).Nodup)
    (hBits : ( V.RCC_APB2Periph_AFIO :: V.ports.map Prod.snd).Nodup)
    (port bit : Nat) (hp : (port, bit) ∈ V.ports)
    (GPIO_Pin : Nat) (GPIO_Mode : GPIOMode_TypeDef) (GPIO_Speed : GPIOSpeed_TypeDef) :
    InitGPIO_Pin V port GPIO_Pin GPIO_Mode GPIO_Speed
      = [RCC_APB2PeriphClockCmd bit ENABLE]
        ++ (if GPIO_Mode = GPIO_Mode_AF_PP ∨ GPIO_Mode = GPIO_Mode_AF_OD
            then [V.afioClock] else [])
        ++ [GPIO_Init port ⟨GPIO_Pin, GPIO_Speed, GPIO_Mode⟩]
    ∧ (InitGPIO_Pin V port GPIO_Pin GPIO_Mode GPIO_Speed).filter Call.isClockCmd
      = [RCC_APB2PeriphClockCmd bit ENABLE]
        ++ (if GPIO_Mode = GPIO_Mode_AF_PP ∨ GPIO_Mode = GPIO_Mode_AF_OD
            then [V.afioClock] else [])
    ∧ (InitGPIO_Pin V port GPIO_Pin GPIO_Mode GPIO_Speed).filter
        (fun c => decide (c ∈ V.portClocks))
      = [RCC_APB2PeriphClockCmd bit ENABLE]
    ∧ ∀ q ∈ V.ports, q.1 ≠ port →
        RCC_APB2PeriphClockCmd q.2 ENABLE
          ∉ InitGPIO_Pin V port GPIO_Pin GPIO_Mode GPIO_Speed := by
  have htrace := InitGPIO_Pin_trace V port GPIO_Pin GPIO_Mode GPIO_Speed
  have hclk := InitGPIO_Pin_clock_commands V port GPIO_Pin GPIO_Mode GPIO_Speed
  rw [portClockOf_listed V hPorts port bit hp] at htrace hclk
  have hbitmem : bit ∈ V.ports.map Prod.snd := List.mem_map.mpr ⟨(port, bit), hp, rfl⟩
  have hafio : ∀ b ∈ V.ports.map Prod.snd, ¬ V.RCC_APB2Periph_AFIO = b := by
    intro b hb h
    exact (List.nodup_cons.mp hBits).1 (h ▸ hb)
  have hown : RCC_APB2PeriphClockCmd bit ENABLE ∈ V.portClocks :=
    List.mem_map.mpr ⟨(port, bit), hp, rfl⟩
  have hafioNot : V.afioClock ∉ V.portClocks := by
    intro h
    obtain ⟨q, hq, heq⟩ := List.mem_map.mp h
    simp only [StdPeriph.afioClock, Call.RCC_APB2PeriphClockCmd.injEq, and_true] at heq
    exact hafio q.2 (List.mem_map.mpr ⟨q, hq, rfl⟩) heq.symm
  have hinit : ∀ (p : Nat) (r : GPIO_InitTypeDef), GPIO_Init p r ∉ V.portClocks := by
    intro p r h
    obtain ⟨q, _, heq⟩ := List.mem_map.mp h
    cases heq
  refine ⟨htrace, hclk, ?_, ?_⟩
  · rw [htrace]
    split_ifs <;> simp [List.filter_cons, hown, hafioNot, hinit]
  · intro q hq hne hin
    rw [htrace] at hin
    have hqbit : q.2 ≠ bit := by
      intro h
      have := List.inj_on_of_nodup_map (List.nodup_cons.mp hBits).2 hq hp h
      exact hne (by rw [this])
    have hqafio : ¬ V.RCC_APB2Periph_AFIO = q.2 :=
      hafio q.2 (List.mem_map.mpr ⟨q, hq, rfl⟩)
    split_ifs at hin <;>
      simp [StdPeriph.afioClock, hqbit, Ne.symm hqafio] at hin

/-- C2. For every port (mapped or not), pin mask, mode and speed, when the AFIO
clock-enable call is none of the five port clock-enable calls: the calls of
`InitGPIO_Pin` are exactly the port clock call of the port (one of the five, or none),
the AFIO clock-enable call if the mode is `GPIO_Mode_AF_PP` or `GPIO_Mode_AF_OD`, and
`GPIO_Init`.  So among all its clock commands the AFIO clock-enable call occurs exactly
once for those two modes and not at all otherwise; for each of the six other modes the
only clock command is the port clock call. -/
theorem InitGPIO_Pin_afio_clock_iff (V : StdPeriph)
    (hAfio : V.afioClock ∉ V.portClocks)
    (GPIOx GPIO_Pin : Nat) (GPIO_Mode : GPIOMode_TypeDef) (GPIO_Speed : GPIOSpeed_TypeDef) :
    (InitGPIO_Pin V GPIOx GPIO_Pin GPIO_Mode GPIO_Speed
      = V.portClockOf GPIOx
        ++ (if GPIO_Mode = GPIO_Mode_AF_PP ∨ GPIO_Mode = GPIO_Mode_AF_OD
            then [V.afioClock] else [])
        ++ [GPIO_Init GPIOx ⟨GPIO_Pin, GPIO_Speed, GPIO_Mode⟩])
    ∧ (∀ c ∈ V.portClockOf GPIOx, c ∈ V.portClocks ∧ c ≠ V.afioClock)
    ∧ ((InitGPIO_Pin V GPIOx GPIO_Pin GPIO_Mode GPIO_Speed).filter Call.isClockCmd
      = V.portClockOf GPIOx
        ++ (if GPIO_Mode = GPIO_Mode_AF_PP ∨ GPIO_Mode = GPIO_Mode_AF_OD
            then [V.afioClock] else []))
    ∧ ((InitGPIO_Pin V GPIOx GPIO_Pin GPIO_Mode GPIO_Speed).filter
        (fun c => decide (c = V.afioClock))
      = if GPIO_Mode = GPIO_Mode_AF_PP ∨ GPIO_Mode = GPIO_Mode_AF_OD
        then [V.afioClock] else [])
    ∧ (V.afioClock ∈ InitGPIO_Pin V GPIOx GPIO_Pin GPIO_Mode GPIO_Speed
        ↔ GPIO_Mode = GPIO_Mode_AF_PP ∨ GPIO_Mode = GPIO_Mode_AF_OD)
    ∧ (∀ m ∈ [GPIO_Mode_IN_FLOATING, GPIO_Mode_IPD, GPIO_Mode_IPU, GPIO_Mode_AIN,
                GPIO_Mode_Out_PP, GPIO_Mode_Out_OD],
          V.afioClock ∉ InitGPIO_Pin V GPIOx GPIO_Pin m GPIO_Speed
          ∧ (InitGPIO_Pin V GPIOx GPIO_Pin m GPIO_Speed).filter Call.isClockCmd
              = V.portClockOf GPIOx) := by
  have hport : ∀ c ∈ V.portClockOf GPIOx, c ∈ V.portClocks ∧ c ≠ V.afioClock := by
    intro c hc
    have hm := (portClockOf_mem V GPIOx c hc).1
    exact ⟨hm, fun h => hAfio (h ▸ hm)⟩
  have hnone : (V.portClockOf GPIOx).filter (fun c => decide (c = V.afioClock)) = [] :=
    List.filter_eq_nil_iff.mpr (fun c hc => by simpa using (hport c hc).2)
  have key : ∀ m : GPIOMode_TypeDef,
      (InitGPIO_Pin V GPIOx GPIO_Pin m GPIO_Speed).filter (fun c => decide (c = V.afioClock))
        = if m = GPIO_Mode_AF_PP ∨ m = GPIO_Mode_AF_OD then [V.afioClock] else [] := by
    intro m
    rw [InitGPIO_Pin_trace, List.filter_append, List.filter_append, hnone]
    split_ifs <;> simp [List.filter, StdPeriph.afioClock]
  have mem : ∀ m : GPIOMode_TypeDef,
      V.afioClock ∈ InitGPIO_Pin V GPIOx GPIO_Pin m GPIO_Speed
        ↔ m = GPIO_Mode_AF_PP ∨ m = GPIO_Mode_AF_OD := by
    intro m
    have hk := key m
    constructor
    · intro hin
      by_contra hne
      rw [if_neg hne] at hk
      have : V.afioClock ∈ (InitGPIO_Pin V GPIOx GPIO_Pin m GPIO_Speed).filter
          (fun c => decide (c = V.afioClock)) := by
        rw [List.mem_filter]
        exact ⟨hin, by simp⟩
      rw [hk] at this
      exact absurd this (List.not_mem_nil _)
    · intro hm
      rw [if_pos hm] at hk
      have : V.afioClock ∈ (InitGPIO_Pin V GPIOx GPIO_Pin m GPIO_Speed).filter
          (fun c => decide (c = V.afioClock)) := by
        rw [hk]
        exact List.mem_singleton_self _
      exact (List.mem_filter.mp this).1
  refine ⟨InitGPIO_Pin_trace V GPIOx GPIO_Pin GPIO_Mode GPIO_Speed, hport,
    InitGPIO_Pin_clock_commands V GPIOx GPIO_Pin GPIO_Mode GPIO_Speed, key GPIO_Mode,
    mem GPIO_Mode, ?_⟩
  intro m hm
  have hnot : ¬ (m = GPIO_Mode_AF_PP ∨ m = GPIO_Mode_AF_OD) := by
    simp only [List.mem_cons, List.mem_singleton, List.not_mem_nil, or_false] at hm
    rcases hm with rfl | rfl | rfl | rfl | rfl | rfl <;> decide
  refine ⟨fun h => hnot ((mem m).mp h), ?_⟩
  rw [InitGPIO_Pin_clock_commands, if_neg hnot, List.append_nil]

/-- C3. For each of the nine timers of `InitTIM_TimeBase` (pairwise distinct
addresses, pairwise distinct clock-enable calls) and every argument tuple, the clock
commands issued are exactly one call, the clock-enable call of that timer on its own
bus (APB2 for TIM1, TIM8, TIM15, TIM16, TIM17, APB1 for TIM2 .. TIM5), and the
clock-enable call of no other of the nine timers is issued. -/
theorem InitTIM_TimeBase_enables_own_timer_clock (V : StdPeriph)
    (hTimers : (V.timers.map Prod.fst).Nodup)
    (hClocks : (V.timers.map Prod.snd).Nodup)
    (timer : Nat) (clock : Call) (ht : (timer, clock) ∈ V.timers)
    (TIM_Prescaler TIM_Period TIM_CounterMode TIM_ClockDivision TIM_RepetitionCounter : Nat) :
    (InitTIM_TimeBase V timer TIM_Prescaler TIM_Period TIM_CounterMode TIM_ClockDivision
        TIM_RepetitionCounter).filter Call.isClockCmd = [clock]
    ∧ ∀ q ∈ V.timers, q.1 ≠ timer →
        q.2 ∉ InitTIM_TimeBase V timer TIM_Prescaler TIM_Period TIM_CounterMode
          TIM_ClockDivision TIM_RepetitionCounter := by
  have first : (InitTIM_TimeBase V timer TIM_Prescaler TIM_Period TIM_CounterMode
      TIM_ClockDivision TIM_RepetitionCounter).filter Call.isClockCmd = [clock] := by
    simp only [StdPeriph.timers, List.map_cons, List.map_nil, List.nodup_cons, List.mem_cons,
      List.mem_singleton, List.not_mem_nil, not_or, or_false, List.nodup_nil, and_true,
      not_false_eq_true] at hTimers
    obtain ⟨⟨h12, h13, h14, h15, h18, h1f, h1g, h1h⟩, ⟨h23, h24, h25, h28, h2f, h2g, h2h⟩,
      ⟨h34, h35, h38, h3f, h3g, h3h⟩, ⟨h45, h48, h4f, h4g, h4h⟩, ⟨h58, h5f, h5g, h5h⟩,
      ⟨h8f, h8g, h8h⟩, ⟨hfg, hfh⟩, hgh⟩ := hTimers
    simp only [StdPeriph.timers, List.mem_cons, List.mem_singleton, List.not_mem_nil, or_false,
      Prod.mk.injEq] at ht
    rcases ht with h | h | h | h | h | h | h | h | h <;>
      (obtain ⟨rfl, rfl⟩ := h
       simp [InitTIM_TimeBase, List.filter, Call.isClockCmd, Ne.symm, *])
  refine ⟨first, ?_⟩
  intro q hq hne hin
  have hclk : q.2.isClockCmd = true := by
    simp only [StdPeriph.timers, List.mem_cons, List.mem_singleton, List.not_mem_nil,
      or_false] at hq
    rcases hq with rfl | rfl | rfl | rfl | rfl | rfl | rfl | rfl | rfl <;> rfl
  have hmem : q.2 ∈ (InitTIM_TimeBase V timer TIM_Prescaler TIM_Period TIM_CounterMode
      TIM_ClockDivision TIM_RepetitionCounter).filter Call.isClockCmd :=
    List.mem_filter.mpr ⟨hin, hclk⟩
  rw [first, List.mem_singleton] at hmem
  have heq : q = (timer, clock) := List.inj_on_of_nodup_map hClocks hq ht hmem
  exact hne (by rw [heq])

/-- C4. For every timer (mapped or not) and every argument tuple, `InitTIM_TimeBase`
makes exactly one `TIM_TimeBaseInit` call, on that timer, and its record holds
`TIM_Prescaler`, `TIM_Period`, `TIM_CounterMode`, `TIM_ClockDivision` and
`TIM_RepetitionCounter` equal to the arguments, unchanged. -/
theorem InitTIM_TimeBase_record_passthrough (V : StdPeriph) (TIMx : Nat)
    (TIM_Prescaler TIM_Period TIM_CounterMode TIM_ClockDivision TIM_RepetitionCounter : Nat) :
    (InitTIM_TimeBase V TIMx TIM_Prescaler TIM_Period TIM_CounterMode TIM_ClockDivision
        TIM_RepetitionCounter).filterMap Call.timeBaseInit?
      = [(TIMx,
          { TIM_Prescaler := TIM_Prescaler
            TIM_CounterMode := TIM_CounterMode
            TIM_Period := TIM_Period
            TIM_ClockDivision := TIM_ClockDivision
            TIM_RepetitionCounter := TIM_RepetitionCounter })] := by
  simp only [InitTIM_TimeBase]
  split_ifs <;> simp [List.filterMap, Call.timeBaseInit?]

/-- C6. For each of the three UARTs (pairwise distinct addresses) and every mode, baud
rate, word length, stop bits and parity, `InitUSART` enables the clock of that UART
(USART1 on APB2, USART2 and USART3 on APB1) and then calls the pin-initialisation
function twice, for Tx as `GPIO_Mode_AF_PP` and for Rx as `GPIO_Mode_IN_FLOATING`, both
at `GPIO_Speed_50MHz`: A9/A10 for USART1, A2/A3 for USART2, B10/B11 for USART3; this
holds whatever the pin-initialisation function does, and with `InitGPIO_Pin` for it the
`GPIO_Init` calls are the two of that pin pair with those modes and speed. -/
theorem InitUSART_clock_and_pins (V : StdPeriph) (hU : V.usarts.Nodup)
    (Mode BaudRate WordLength StopBits Parity : Nat) :
    (∀ InitGPIOPin : PinInit,
      InitUSART V InitGPIOPin V.USART1 Mode BaudRate WordLength StopBits Parity
        = [RCC_APB2PeriphClockCmd V.RCC_APB2Periph_USART1 ENABLE]
          ++ InitGPIOPin V.GPIOA V.GPIO_Pin_9 GPIO_Mode_AF_PP GPIO_Speed_50MHz
          ++ InitGPIOPin V.GPIOA V.GPIO_Pin_10 GPIO_Mode_IN_FLOATING GPIO_Speed_50MHz
          ++ [USART_Init V.USART1
                { V.USART_StructInit with
                  USART_BaudRate := BaudRate
                  USART_WordLength := WordLength
                  USART_StopBits := StopBits
                  USART_Parity := Parity
                  USART_Mode := Mode },
              USART_Cmd V.USART1 ENABLE]
      ∧ InitUSART V InitGPIOPin V.USART2 Mode BaudRate WordLength StopBits Parity
        = [RCC_APB1PeriphClockCmd V.RCC_APB1Periph_USART2 ENABLE]
          ++ InitGPIOPin V.GPIOA V.GPIO_Pin_2 GPIO_Mode_AF_PP GPIO_Speed_50MHz
          ++ InitGPIOPin V.GPIOA V.GPIO_Pin_3 GPIO_Mode_IN_FLOATING GPIO_Speed_50MHz
          ++ [USART_Init V.USART2
                { V.USART_StructInit with
                  USART_BaudRate := BaudRate
                  USART_WordLength := WordLength
                  USART_StopBits := StopBits
                  USART_Parity := Parity
                  USART_Mode := Mode },
              USART_Cmd V.USART2 ENABLE]
      ∧ InitUSART V InitGPIOPin V.USART3 Mode BaudRate WordLength StopBits Parity
        = [RCC_APB1PeriphClockCmd V.RCC_APB1Periph_USART3 ENABLE]
          ++ InitGPIOPin V.GPIOB V.GPIO_Pin_10 GPIO_Mode_AF_PP GPIO_Speed_50MHz
          ++ InitGPIOPin V.GPIOB V.GPIO_Pin_11 GPIO_Mode_IN_FLOATING GPIO_Speed_50MHz
          ++ [USART_Init V.USART3
                { V.USART_StructInit with
                  USART_BaudRate := BaudRate
                  USART_WordLength := WordLength
                  USART_StopBits := StopBits
                  USART_Parity := Parity
                  USART_Mode := Mode },
              USART_Cmd V.USART3 ENABLE])
    ∧ (InitUSART V (InitGPIO_Pin V) V.USART1 Mode BaudRate WordLength StopBits
          Parity).filterMap Call.gpioInit?
        = [(V.GPIOA, ⟨V.GPIO_Pin_9, GPIO_Speed_50MHz, GPIO_Mode_AF_PP⟩),
           (V.GPIOA, ⟨V.GPIO_Pin_10, GPIO_Speed_50MHz, GPIO_Mode_IN_FLOATING⟩)]
    ∧ (InitUSART V (InitGPIO_Pin V) V.USART2 Mode BaudRate WordLength StopBits
          Parity).filterMap Call.gpioInit?
        = [(V.GPIOA, ⟨V.GPIO_Pin_2, GPIO_Speed_50MHz, GPIO_Mode_AF_PP⟩),
           (V.GPIOA, ⟨V.GPIO_Pin_3, GPIO_Speed_50MHz, GPIO_Mode_IN_FLOATING⟩)]
    ∧ (InitUSART V (InitGPIO_Pin V) V.USART3 Mode BaudRate WordLength StopBits
          Parity).filterMap Call.gpioInit?
        = [(V.GPIOB, ⟨V.GPIO_Pin_10, GPIO_Speed_50MHz, GPIO_Mode_AF_PP⟩),
           (V.GPIOB, ⟨V.GPIO_Pin_11, GPIO_Speed_50MHz, GPIO_Mode_IN_FLOATING⟩)] := by
  simp only [StdPeriph.usarts, List.nodup_cons, List.mem_cons, List.mem_singleton,
    List.not_mem_nil, not_or, or_false, List.nodup_nil, and_true, not_false_eq_true] at hU
  obtain ⟨⟨h12, h13⟩, h23⟩ := hU
  have h21 := Ne.symm h12
  have h31 := Ne.symm h13
  have h32 := Ne.symm h23
  refine ⟨fun InitGPIOPin => ⟨by simp [InitUSART, h12, h13], by simp [InitUSART, h21, h23],
    by simp [InitUSART, h31, h32]⟩, ?_, ?_, ?_⟩
  · simp only [InitUSART, InitGPIO_Pin, h12, h13, if_true, if_false]
    split_ifs <;> simp [List.filterMap, Call.gpioInit?]
  · simp only [InitUSART, InitGPIO_Pin, h21, h23, if_true, if_false]
    split_ifs <;> simp [List.filterMap, Call.gpioInit?]
  · simp only [InitUSART, InitGPIO_Pin, h31, h32, if_true, if_false]
    split_ifs <;> simp [List.filterMap, Call.gpioInit?]

/-- C7. For every UART identity, mode and baud rate (and whatever the
pin-initialisation function is), `InitDefaultUSART` issues the same sequence of calls
with the same arguments as `InitUSART` with `USART_WordLength_8b`, `USART_StopBits_1`
and `USART_Parity_No`; hence, for any effect of the calls on any state, both lead from
the same state to the same state. -/
theorem InitDefaultUSART_eq_InitUSART (V : StdPeriph) (InitGPIOPin : PinInit)
    (USARTx Mode BaudRate : Nat) :
    InitDefaultUSART V InitGPIOPin USARTx Mode BaudRate
      = InitUSART V InitGPIOPin USARTx Mode BaudRate
          V.USART_WordLength_8b V.USART_StopBits_1 V.USART_Parity_No
    ∧ ∀ (σ : Type) (effect : σ → Call → σ) (s : σ),
        (InitDefaultUSART V InitGPIOPin USARTx Mode BaudRate).foldl effect s
          = (InitUSART V InitGPIOPin USARTx Mode BaudRate
              V.USART_WordLength_8b V.USART_StopBits_1 V.USART_Parity_No).foldl effect s :=
  ⟨rfl, fun _ _ _ => rfl⟩

/-- C9. For every k in 0..15 (the sixteen line constants pairwise distinct) and every
port source, mode, trigger and enable flag, `InitEXTI` with `Line = EXTI_Line<k>`
issues exactly two calls: `GPIO_EXTILineConfig(GPIO_PortSourceX, GPIO_PinSource<k>)`
with the same index k, then `EXTI_Init` with the record whose `EXTI_Line` is
`EXTI_Line<k>` and whose mode, trigger and `LineCmd` are the arguments. -/
theorem InitEXTI_routes_and_configures_same_line (V : StdPeriph) (hLines : V.lines.Nodup)
    (k : Nat) (hk : k < 16) (GPIO_PortSourceX : Nat) (Mode : EXTIMode_TypeDef)
    (Trigger : EXTITrigger_TypeDef) (LineCmd : FunctionalState) :
    InitEXTI V GPIO_PortSourceX (V.EXTI_Line k) Mode Trigger LineCmd
      = [GPIO_EXTILineConfig GPIO_PortSourceX (V.GPIO_PinSource k),
         EXTI_Init
           { EXTI_Line := V.EXTI_Line k
             EXTI_Mode := Mode
             EXTI_Trigger := Trigger
             EXTI_LineCmd := LineCmd }] := by
  have inj : ∀ j, j < 16 → (V.EXTI_Line k = V.EXTI_Line j ↔ k = j) := by
    intro j hj
    constructor
    · intro h
      exact List.inj_on_of_nodup_map hLines (List.mem_range.mpr hk) (List.mem_range.mpr hj) h
    · intro h
      rw [h]
  simp only [InitEXTI, InitEXTI_route, inj 0 (by decide), inj 1 (by decide), inj 2 (by decide),
    inj 3 (by decide), inj 4 (by decide), inj 5 (by decide), inj 6 (by decide),
    inj 7 (by decide), inj 8 (by decide), inj 9 (by decide), inj 10 (by decide),
    inj 11 (by decide), inj 12 (by decide), inj 13 (by decide), inj 14 (by decide),
    inj 15 (by decide)]
  interval_cases k <;> simp

/-- C10. For a port that is none of GPIOA .. GPIOE, a timer that is none of the nine
mapped timers and a UART that is none of USART1 .. USART3, and for all other
arguments: `InitGPIO_Pin` issues no port clock call (only the AFIO clock call of an
alternate-function mode) and still calls `GPIO_Init` on that port; `InitTIM_TimeBase`
issues exactly `TIM_TimeBaseInit` then `TIM_Cmd(TIMx, ENABLE)` on that timer;
`InitUSART` issues exactly `USART_Init` then `USART_Cmd(USARTx, ENABLE)` on that UART.
Nothing else is called or reported. -/
theorem unmapped_identity_skips_clock_only (V : StdPeriph) (InitGPIOPin : PinInit)
    (GPIOx TIMx USARTx : Nat)
    (hG : GPIOx ∉ V.ports.map Prod.fst)
    (hT : TIMx ∉ V.timers.map Prod.fst)
    (hU : USARTx ∉ V.usarts)
    (GPIO_Pin : Nat) (GPIO_Mode : GPIOMode_TypeDef) (GPIO_Speed : GPIOSpeed_TypeDef)
    (TIM_Prescaler TIM_Period TIM_CounterMode TIM_ClockDivision TIM_RepetitionCounter : Nat)
    (Mode BaudRate WordLength StopBits Parity : Nat) :
    InitGPIO_Pin V GPIOx GPIO_Pin GPIO_Mode GPIO_Speed
      = (if GPIO_Mode = GPIO_Mode_AF_PP ∨ GPIO_Mode = GPIO_Mode_AF_OD
          then [V.afioClock] else [])
        ++ [GPIO_Init GPIOx ⟨GPIO_Pin, GPIO_Speed, GPIO_Mode⟩]
    ∧ InitTIM_TimeBase V TIMx TIM_Prescaler TIM_Period TIM_CounterMode TIM_ClockDivision
          TIM_RepetitionCounter
      = [TIM_TimeBaseInit TIMx
            { TIM_Prescaler := TIM_Prescaler
              TIM_CounterMode := TIM_CounterMode
              TIM_Period := TIM_Period
              TIM_ClockDivision := TIM_ClockDivision
              TIM_RepetitionCounter := TIM_RepetitionCounter },
         TIM_Cmd TIMx ENABLE]
    ∧ InitUSART V InitGPIOPin USARTx Mode BaudRate WordLength StopBits Parity
      = [USART_Init USARTx
            { V.USART_StructInit with
              USART_BaudRate := BaudRate
              USART_WordLength := WordLength
              USART_StopBits := StopBits
              USART_Parity := Parity
              USART_Mode := Mode },
         USART_Cmd USARTx ENABLE] := by
  simp only [StdPeriph.ports, StdPeriph.timers, StdPeriph.usarts, List.map_cons, List.map_nil,
    List.mem_cons, List.mem_singleton, List.not_mem_nil, or_false, not_or] at hG hT hU
  obtain ⟨ga, gb, gc, gd, ge⟩ := hG
  obtain ⟨t1, t2, t3, t4, t5, t8, t15, t16, t17⟩ := hT
  obtain ⟨u1, u2, u3⟩ := hU
  refine ⟨?_, ?_, ?_⟩
  · simp [InitGPIO_Pin, StdPeriph.afioClock, ga, gb, gc, gd, ge]
  · simp [InitTIM_TimeBase, t1, t2, t3, t4, t5, t8, t15, t16, t17]
  · simp [InitUSART, u1, u2, u3]

/-- C11. For every timer and each of the four channel constants (pairwise distinct),
`InitTIM_OC` issues exactly two calls: the apply call of that channel (`TIM_OC1Init` ..
`TIM_OC4Init`), once, then `TIM_Cmd(TIMx, ENABLE)`; the record passed has
`TIM_OutputState`, `TIM_OCMode`, `TIM_Pulse` and `TIM_OCPolarity` equal to the
arguments.  For every channel value, listed or not, the trace ends with
`TIM_Cmd(TIMx, ENABLE)` and holds nothing but apply calls before it. -/
theorem InitTIM_OC_applies_own_channel (V : StdPeriph) (hCh : V.channels.Nodup) (TIMx : Nat)
    (output_state oc_mode pulse polarity : Nat) :
    (InitTIM_OC V TIMx V.TIM_Channel_1 output_state oc_mode pulse polarity
        = [TIM_OC1Init TIMx (InitTIM_OC_record V output_state oc_mode pulse polarity),
           TIM_Cmd TIMx ENABLE]
      ∧ InitTIM_OC V TIMx V.TIM_Channel_2 output_state oc_mode pulse polarity
        = [TIM_OC2Init TIMx (InitTIM_OC_record V output_state oc_mode pulse polarity),
           TIM_Cmd TIMx ENABLE]
      ∧ InitTIM_OC V TIMx V.TIM_Channel_3 output_state oc_mode pulse polarity
        = [TIM_OC3Init TIMx (InitTIM_OC_record V output_state oc_mode pulse polarity),
           TIM_Cmd TIMx ENABLE]
      ∧ InitTIM_OC V TIMx V.TIM_Channel_4 output_state oc_mode pulse polarity
        = [TIM_OC4Init TIMx (InitTIM_OC_record V output_state oc_mode pulse polarity),
           TIM_Cmd TIMx ENABLE])
    ∧ ((InitTIM_OC_record V output_state oc_mode pulse polarity).TIM_OutputState = output_state
      ∧ (InitTIM_OC_record V output_state oc_mode pulse polarity).TIM_OCMode = oc_mode
      ∧ (InitTIM_OC_record V output_state oc_mode pulse polarity).TIM_Pulse = pulse
      ∧ (InitTIM_OC_record V output_state oc_mode pulse polarity).TIM_OCPolarity = polarity)
    ∧ ∀ channel : Nat, ∃ pre : List Call,
        InitTIM_OC V TIMx channel output_state oc_mode pulse polarity
          = pre ++ [TIM_Cmd TIMx ENABLE]
        ∧ ∀ c ∈ pre, c.isOCInit = true := by
  simp only [StdPeriph.channels, List.nodup_cons, List.mem_cons, List.mem_singleton,
    List.not_mem_nil, not_or, or_false, List.nodup_nil, and_true, not_false_eq_true] at hCh
  obtain ⟨⟨h12, h13, h14⟩, ⟨h23, h24⟩, h34⟩ := hCh
  have h21 := Ne.symm h12
  have h31 := Ne.symm h13
  have h41 := Ne.symm h14
  have h32 := Ne.symm h23
  have h42 := Ne.symm h24
  have h43 := Ne.symm h34
  refine ⟨⟨?_, ?_, ?_, ?_⟩, ⟨rfl, rfl, rfl, rfl⟩, ?_⟩
  · simp [InitTIM_OC, h12, h13, h14]
  · simp [InitTIM_OC, h21, h23, h24]
  · simp [InitTIM_OC, h31, h32, h34]
  · simp [InitTIM_OC, h41, h42, h43]
  · intro channel
    refine ⟨_, rfl, ?_⟩
    intro c hc
    simp only [List.mem_append] at hc
    rcases hc with ((hc | hc) | hc) | hc <;>
      (split_ifs at hc
       · rw [List.mem_singleton] at hc
         rw [hc]
         rfl
       · exact absurd hc (List.not_mem_nil _))

/-- C13. For every timer and every value of `channel`, `InitTIM_IC` issues exactly two
calls: one `TIM_ICInit` on that timer with the record whose `TIM_Channel`,
`TIM_ICSelection`, `TIM_ICPrescaler`, `TIM_ICFilter` and `TIM_ICPolarity` are the
arguments, then `TIM_Cmd(TIMx, ENABLE)`; no value of `channel` skips the apply call. -/
theorem InitTIM_IC_applies_once (V : StdPeriph) (TIMx : Nat)
    (channel selection prescaler filter polarity : Nat) :
    InitTIM_IC V TIMx channel selection prescaler filter polarity
      = [TIM_ICInit TIMx
            { TIM_Channel := channel
              TIM_ICPolarity := polarity
              TIM_ICSelection := selection
              TIM_ICPrescaler := prescaler
              TIM_ICFilter := filter },
         TIM_Cmd TIMx ENABLE] := by
  rfl

/-- The calls of `InitEXTI` for the line constant of index `k < 16`, the sixteen
constants being pairwise distinct. -/
theorem InitEXTI_listed_line (V : StdPeriph) (hLines : V.lines.Nodup) (k : Nat) (hk : k < 16)
    (GPIO_PortSourceX : Nat) (Mode : EXTIMode_TypeDef) (Trigger : EXTITrigger_TypeDef)
    (LineCmd : FunctionalState) :
    InitEXTI V GPIO_PortSourceX (V.EXTI_Line k) Mode Trigger LineCmd
      = [GPIO_EXTILineConfig GPIO_PortSourceX (V.GPIO_PinSource k),
         EXTI_Init ⟨V.EXTI_Line k, Mode, Trigger, LineCmd⟩] := by
  have inj : ∀ j, j < 16 → (V.EXTI_Line k = V.EXTI_Line j ↔ k = j) := fun j hj =>
    ⟨fun h => List.inj_on_of_nodup_map hLines (List.mem_range.mpr hk) (List.mem_range.mpr hj) h,
      fun h => by rw [h]⟩
  simp only [InitEXTI, InitEXTI_route, inj 0 (by omega), inj 1 (by omega), inj 2 (by omega),
    inj 3 (by omega), inj 4 (by omega), inj 5 (by omega), inj 6 (by omega), inj 7 (by omega),
    inj 8 (by omega), inj 9 (by omega), inj 10 (by omega), inj 11 (by omega),
    inj 12 (by omega), inj 13 (by omega), inj 14 (by omega), inj 15 (by omega)]
  interval_cases k <;> simp

/-- The calls of `InitEXTI` for a line value that is none of the sixteen constants. -/
theorem InitEXTI_unlisted_line (V : StdPeriph) (GPIO_PortSourceX Line : Nat)
    (hNot : Line ∉ V.lines) (Mode : EXTIMode_TypeDef) (Trigger : EXTITrigger_TypeDef)
    (LineCmd : FunctionalState) :
    InitEXTI V GPIO_PortSourceX Line Mode Trigger LineCmd
      = [EXTI_Init ⟨Line, Mode, Trigger, LineCmd⟩] := by
  have ne : ∀ j, j < 16 → ¬ Line = V.EXTI_Line j := fun j hj h =>
    hNot (List.mem_map.mpr ⟨j, List.mem_range.mpr hj, h.symm⟩)
  unfold InitEXTI InitEXTI_route
  rw [if_neg (ne 0 (by omega)), if_neg (ne 1 (by omega)), if_neg (ne 2 (by omega)),
    if_neg (ne 3 (by omega)), if_neg (ne 4 (by omega)), if_neg (ne 5 (by omega)),
    if_neg (ne 6 (by omega)), if_neg (ne 7 (by omega)), if_neg (ne 8 (by omega)),
    if_neg (ne 9 (by omega)), if_neg (ne 10 (by omega)), if_neg (ne 11 (by omega)),
    if_neg (ne 12 (by omega)), if_neg (ne 13 (by omega)), if_neg (ne 14 (by omega)),
    if_neg (ne 15 (by omega))]
  rfl

/-- C14. With the sixteen line constants pairwise distinct: for every `Line` value that
is none of `EXTI_Line0` .. `EXTI_Line15`, `InitEXTI` issues no routing call and exactly
one call, `EXTI_Init` with the record whose `EXTI_Line` is that value and whose mode,
trigger and `LineCmd` are the arguments; and for every `Line` value at most one routing
call is issued. -/
theorem InitEXTI_unlisted_line_not_routed (V : StdPeriph) (hLines : V.lines.Nodup)
    (GPIO_PortSourceX Line : Nat) (hNot : Line ∉ V.lines)
    (Mode : EXTIMode_TypeDef) (Trigger : EXTITrigger_TypeDef) (LineCmd : FunctionalState) :
    InitEXTI V GPIO_PortSourceX Line Mode Trigger LineCmd
      = [EXTI_Init
           { EXTI_Line := Line
             EXTI_Mode := Mode
             EXTI_Trigger := Trigger
             EXTI_LineCmd := LineCmd }]
    ∧ (InitEXTI V GPIO_PortSourceX Line Mode Trigger LineCmd).filter Call.isRoute = []
    ∧ ∀ anyLine : Nat,
        ((InitEXTI V GPIO_PortSourceX anyLine Mode Trigger LineCmd).filter Call.isRoute).length
          ≤ 1 := by
  refine ⟨InitEXTI_unlisted_line V GPIO_PortSourceX Line hNot Mode Trigger LineCmd, ?_, ?_⟩
  · rw [InitEXTI_unlisted_line V GPIO_PortSourceX Line hNot Mode Trigger LineCmd]
    rfl
  · intro anyLine
    by_cases hin : anyLine ∈ V.lines
    · obtain ⟨k, hk, rfl⟩ := List.mem_map.mp hin
      rw [InitEXTI_listed_line V hLines k (List.mem_range.mp hk)]
      simp [List.filter, Call.isRoute]
    · rw [InitEXTI_unlisted_line V GPIO_PortSourceX anyLine hin Mode Trigger LineCmd]
      simp [List.filter, Call.isRoute]

/-- Programming `w` and then `ws` is programming `w :: ws`. -/
theorem programAll_cons {Reg Val : Type} [DecidableEq Reg] (s : Reg → Val) (w : Reg × Val)
    (ws : List (Reg × Val)) :
    programAll s (w :: ws) = programAll (Function.update s w.1 w.2) ws :=
  rfl

/-- Programming `a ++ b` is programming `a`, then `b`. -/
theorem programAll_append {Reg Val : Type} [DecidableEq Reg] (s : Reg → Val)
    (a b : List (Reg × Val)) :
    programAll s (a ++ b) = programAll (programAll s a) b := by
  unfold programAll
  rw [List.foldl_append]

/-- A register that is not written keeps its content. -/
theorem programAll_untouched {Reg Val : Type} [DecidableEq Reg] (ws : List (Reg × Val))
    (s : Reg → Val) (k : Reg) (hk : k ∉ ws.map Prod.fst) :
    programAll s ws k = s k := by
  induction ws generalizing s with
  | nil => rfl
  | cons w ws ih =>
    rw [List.map_cons, List.mem_cons, not_or] at hk
    rw [programAll_cons, ih _ hk.2, Function.update_noteq hk.1]

/-- The content of a written register does not depend on the state before. -/
theorem programAll_touched {Reg Val : Type} [DecidableEq Reg] (ws : List (Reg × Val))
    (s t : Reg → Val) (k : Reg) (hk : k ∈ ws.map Prod.fst) :
    programAll s ws k = programAll t ws k := by
  induction ws generalizing s t with
  | nil => exact absurd hk (List.not_mem_nil _)
  | cons w ws ih =>
    rw [programAll_cons, programAll_cons]
    by_cases hin : k ∈ ws.map Prod.fst
    · exact ih _ _ hin
    · rw [List.map_cons, List.mem_cons] at hk
      have hkw : k = w.1 := hk.resolve_right hin
      rw [programAll_untouched ws _ k hin, programAll_untouched ws _ k hin, hkw,
        Function.update_same, Function.update_same]

/-- Programming the same registers with the same values a second time changes
nothing. -/
theorem programAll_twice {Reg Val : Type} [DecidableEq Reg] (ws : List (Reg × Val))
    (s : Reg → Val) :
    programAll (programAll s ws) ws = programAll s ws := by
  funext k
  by_cases hin : k ∈ ws.map Prod.fst
  · exact programAll_touched ws _ _ k hin
  · rw [programAll_untouched ws _ k hin]

/-- A call that is no clock command leaves the clock-enable bits as they are. -/
theorem Call.quietAt_of_not_clock (apb1 apb2 : Nat) (c : Call) (hc : c.isClockCmd = false) :
    c.quietAt apb1 apb2 = true := by
  cases c <;> first | rfl | simp [Call.isClockCmd] at hc

/-- A clock command that enables is a clock command. -/
theorem Call.isClockCmd_of_isEnableClock (c : Call) (hc : c.isEnableClock = true) :
    c.isClockCmd = true := by
  cases c <;> first | rfl | simp [Call.isEnableClock] at hc

/-- The records applied by `c :: calls` are those of `c`, then those of `calls`. -/
theorem Hardware.appliedAt_cons {Slot : Type} (H : Hardware Slot) (apb1 apb2 : Nat) (c : Call)
    (calls : List Call) :
    H.appliedAt apb1 apb2 (c :: calls) = H.appliedAt apb1 apb2 [c] ++ H.appliedAt apb1 apb2 calls := by
  show H.appliedAt apb1 apb2 ([c] ++ calls) = _
  unfold Hardware.appliedAt
  rw [List.filterMap_append]

/-- The records applied by `a ++ b` are those of `a`, then those of `b`. -/
theorem Hardware.appliedAt_append {Slot : Type} (H : Hardware Slot) (apb1 apb2 : Nat)
    (a b : List Call) :
    H.appliedAt apb1 apb2 (a ++ b) = H.appliedAt apb1 apb2 a ++ H.appliedAt apb1 apb2 b := by
  unfold Hardware.appliedAt
  rw [List.filterMap_append]

/-- Clock commands apply no record. -/
theorem Hardware.appliedAt_clocks {Slot : Type} (H : Hardware Slot) (apb1 apb2 : Nat)
    (k : List Call) (hk : ∀ c ∈ k, c.isClockCmd = true) :
    H.appliedAt apb1 apb2 k = [] := by
  unfold Hardware.appliedAt
  rw [List.filterMap_eq_nil_iff]
  intro c hc
  simp [hk c hc]

/-- One call that leaves the clock-enable bits as they are changes the applied records
only. -/
theorem Hardware.step_quiet {Slot : Type} [DecidableEq Slot] (H : Hardware Slot)
    (s : PeriphState Slot) (c : Call) (hq : c.quietAt s.APB1ENR s.APB2ENR = true) :
    H.step s c
      = { s with applied := programAll s.applied (H.appliedAt s.APB1ENR s.APB2ENR [c]) } := by
  cases c
  case RCC_APB2PeriphClockCmd m st =>
    have h : clockBits s.APB2ENR m st = s.APB2ENR := of_decide_eq_true hq
    simp only [Hardware.step, h]
    rfl
  case RCC_APB1PeriphClockCmd m st =>
    have h : clockBits s.APB1ENR m st = s.APB1ENR := of_decide_eq_true hq
    simp only [Hardware.step, h]
    rfl
  all_goals
    simp only [Hardware.step, Hardware.appliedAt, List.filterMap_cons, List.filterMap_nil,
      Call.isClockCmd, Bool.not_false, Bool.true_and]
    split_ifs <;> rfl

/-- A sequence of calls that leave the clock-enable bits as they are changes the
applied records only. -/
theorem Hardware.run_quiet {Slot : Type} [DecidableEq Slot] (H : Hardware Slot)
    (calls : List Call) (s : PeriphState Slot)
    (hq : ∀ c ∈ calls, c.quietAt s.APB1ENR s.APB2ENR = true) :
    H.run s calls
      = { s with applied := programAll s.applied (H.appliedAt s.APB1ENR s.APB2ENR calls) } := by
  induction calls generalizing s with
  | nil => rfl
  | cons c t ih =>
    have hrun : H.run s (c :: t) = H.run (H.step s c) t := rfl
    rw [hrun, H.step_quiet s c (hq c (List.mem_cons_self _ _))]
    exact (ih ⟨s.APB1ENR, s.APB2ENR,
        programAll s.applied (H.appliedAt s.APB1ENR s.APB2ENR [c])⟩
      (fun d hd => hq d (List.mem_cons_of_mem _ hd))).trans
      (by rw [H.appliedAt_cons _ _ c t, programAll_append])

/-- Bits that are enabled stay enabled when further bits are enabled. -/
theorem lor_absorb (e m n : Nat) (h : e ||| m = e) : (e ||| n) ||| m = e ||| n := by
  rw [Nat.lor_assoc, Nat.lor_comm n m, ← Nat.lor_assoc, h]

/-- Enabling the same bits a second time changes nothing. -/
theorem lor_twice (e m : Nat) : (e ||| m) ||| m = e ||| m := by
  rw [Nat.lor_assoc, Nat.or_self]

/-- After an enabling clock command, the same command leaves the bits as they are. -/
theorem Hardware.quietAt_step_self {Slot : Type} [DecidableEq Slot] (H : Hardware Slot)
    (s : PeriphState Slot) (c : Call) (hc : c.isEnableClock = true) :
    c.quietAt (H.step s c).APB1ENR (H.step s c).APB2ENR = true := by
  cases c
  case RCC_APB2PeriphClockCmd m st =>
    cases st
    · simp [Call.isEnableClock] at hc
    · exact decide_eq_true (lor_twice _ _)
  case RCC_APB1PeriphClockCmd m st =>
    cases st
    · simp [Call.isEnableClock] at hc
    · exact decide_eq_true (lor_twice _ _)
  all_goals simp [Call.isEnableClock] at hc

/-- An enabling clock command that leaves the bits as they are still does so after
another enabling clock command. -/
theorem Hardware.quietAt_step_mono {Slot : Type} [DecidableEq Slot] (H : Hardware Slot)
    (s : PeriphState Slot) (c d : Call) (hc : c.isEnableClock = true)
    (hd : d.isEnableClock = true) (hq : c.quietAt s.APB1ENR s.APB2ENR = true) :
    c.quietAt (H.step s d).APB1ENR (H.step s d).APB2ENR = true := by
  cases c
  case RCC_APB2PeriphClockCmd m st =>
    cases st
    · simp [Call.isEnableClock] at hc
    · have h : s.APB2ENR ||| m = s.APB2ENR := of_decide_eq_true hq
      cases d
      case RCC_APB2PeriphClockCmd n st2 =>
        cases st2
        · simp [Call.isEnableClock] at hd
        · exact decide_eq_true (lor_absorb _ _ _ h)
      case RCC_APB1PeriphClockCmd n st2 => exact decide_eq_true h
      all_goals simp [Call.isEnableClock] at hd
  case RCC_APB1PeriphClockCmd m st =>
    cases st
    · simp [Call.isEnableClock] at hc
    · have h : s.APB1ENR ||| m = s.APB1ENR := of_decide_eq_true hq
      cases d
      case RCC_APB2PeriphClockCmd n st2 => exact decide_eq_true h
      case RCC_APB1PeriphClockCmd n st2 =>
        cases st2
        · simp [Call.isEnableClock] at hd
        · exact decide_eq_true (lor_absorb _ _ _ h)
      all_goals simp [Call.isEnableClock] at hd
  all_goals simp [Call.isEnableClock] at hc

/-- An enabling clock command that leaves the bits as they are still does so after a
sequence of enabling clock commands. -/
theorem Hardware.quietAt_run_mono {Slot : Type} [DecidableEq Slot] (H : Hardware Slot)
    (k : List Call) (s : PeriphState Slot) (c : Call) (hc : c.isEnableClock = true)
    (hk : ∀ d ∈ k, d.isEnableClock = true) (hq : c.quietAt s.APB1ENR s.APB2ENR = true) :
    c.quietAt (H.run s k).APB1ENR (H.run s k).APB2ENR = true := by
  induction k generalizing s with
  | nil => exact hq
  | cons d t ih =>
    exact ih (H.step s d) (fun e he => hk e (List.mem_cons_of_mem _ he))
      (H.quietAt_step_mono s c d hc (hk d (List.mem_cons_self _ _)) hq)

/-- After a sequence of enabling clock commands, each of them leaves the bits as they
are. -/
theorem Hardware.quietAt_after_clocks {Slot : Type} [DecidableEq Slot] (H : Hardware Slot)
    (k : List Call) (s : PeriphState Slot) (hk : ∀ d ∈ k, d.isEnableClock = true) :
    ∀ c ∈ k, c.quietAt (H.run s k).APB1ENR (H.run s k).APB2ENR = true := by
  induction k generalizing s with
  | nil => intro c hc; exact absurd hc (List.not_mem_nil _)
  | cons d t ih =>
    intro c hc
    have ht : ∀ e ∈ t, e.isEnableClock = true := fun e he => hk e (List.mem_cons_of_mem _ he)
    rcases List.mem_cons.mp hc with rfl | hct
    · exact H.quietAt_run_mono t (H.step s c) c (hk c (List.mem_cons_self _ _)) ht
        (H.quietAt_step_self s c (hk c (List.mem_cons_self _ _)))
    · exact ih (H.step s d) ht c hct

/-- A sequence of calls made of enabling clock commands `k` followed by calls `r` whose
clock commands all occur in `k` already: made a second time, it leaves the state reached
after the first. -/
theorem Hardware.run_twice {Slot : Type} [DecidableEq Slot] (H : Hardware Slot)
    (k r : List Call) (s : PeriphState Slot)
    (hk : ∀ c ∈ k, c.isEnableClock = true)
    (hr : ∀ c ∈ r, c.isClockCmd = true → c ∈ k) :
    H.run (H.run s (k ++ r)) (k ++ r) = H.run s (k ++ r) := by
  have hsplit : ∀ st : PeriphState Slot, H.run st (k ++ r) = H.run (H.run st k) r :=
    fun st => List.foldl_append _ _ _ _
  have hqk := H.quietAt_after_clocks k s hk
  have hqr : ∀ c ∈ r, c.quietAt (H.run s k).APB1ENR (H.run s k).APB2ENR = true := by
    intro c hc
    cases hclk : c.isClockCmd with
    | false => exact Call.quietAt_of_not_clock _ _ c hclk
    | true => exact hqk c (hr c hc hclk)
  have hall : ∀ c ∈ k ++ r, c.quietAt (H.run s k).APB1ENR (H.run s k).APB2ENR = true := by
    intro c hc
    rcases List.mem_append.mp hc with h | h
    · exact hqk c h
    · exact hqr c h
  have hfirst := H.run_quiet r (H.run s k) hqr
  rw [hsplit s, hfirst]
  exact (H.run_quiet (k ++ r)
      ⟨(H.run s k).APB1ENR, (H.run s k).APB2ENR,
        programAll (H.run s k).applied
          (H.appliedAt (H.run s k).APB1ENR (H.run s k).APB2ENR r)⟩ hall).trans
    (by rw [H.appliedAt_append,
          H.appliedAt_clocks _ _ k (fun c hc => Call.isClockCmd_of_isEnableClock c (hk c hc)),
          List.nil_append, programAll_twice])

/-- A sequence without clock commands, made a second time, leaves the state reached
after the first. -/
theorem Hardware.run_twice_of_no_clock {Slot : Type} [DecidableEq Slot] (H : Hardware Slot)
    (calls : List Call) (s : PeriphState Slot) (hc : ∀ c ∈ calls, c.isClockCmd = false) :
    H.run (H.run s calls) calls = H.run s calls :=
  H.run_twice [] calls s (fun c h => absurd h (List.not_mem_nil _))
    (fun c h hclk => absurd hclk (by rw [hc c h]; decide))

/-- The port clock call of any address, if there is one, is an enabling clock
command. -/
theorem portClockOf_enable (V : StdPeriph) (GPIOx : Nat) :
    ∀ c ∈ V.portClockOf GPIOx, c.isEnableClock = true := by
  intro c hc
  cases hfind : V.ports.find? (fun q => decide (GPIOx = q.1)) with
  | none =>
    simp only [StdPeriph.portClockOf, hfind, List.not_mem_nil] at hc
  | some q =>
    simp only [StdPeriph.portClockOf, hfind, List.mem_singleton] at hc
    subst hc
    rfl

/-- The clock commands that `InitGPIO_Pin` starts with are enabling ones. -/
theorem InitGPIO_Pin_clocks_enable (V : StdPeriph) (GPIOx : Nat) (GPIO_Mode : GPIOMode_TypeDef) :
    ∀ c ∈ V.portClockOf GPIOx
        ++ (if GPIO_Mode = GPIO_Mode_AF_PP ∨ GPIO_Mode = GPIO_Mode_AF_OD
            then [V.afioClock] else []),
      c.isEnableClock = true := by
  intro c hc
  rcases List.mem_append.mp hc with h | h
  · exact portClockOf_enable V GPIOx c h
  · split_ifs at h
    · rw [List.mem_singleton.mp h]
      rfl
    · exact absurd h (List.not_mem_nil _)

/-- `InitGPIO_Pin` made twice leaves the peripheral state of once. -/
theorem InitGPIO_Pin_twice {Slot : Type} [DecidableEq Slot] (H : Hardware Slot) (V : StdPeriph)
    (s : PeriphState Slot) (GPIOx GPIO_Pin : Nat) (GPIO_Mode : GPIOMode_TypeDef)
    (GPIO_Speed : GPIOSpeed_TypeDef) :
    H.run (H.run s (InitGPIO_Pin V GPIOx GPIO_Pin GPIO_Mode GPIO_Speed))
        (InitGPIO_Pin V GPIOx GPIO_Pin GPIO_Mode GPIO_Speed)
      = H.run s (InitGPIO_Pin V GPIOx GPIO_Pin GPIO_Mode GPIO_Speed) := by
  rw [InitGPIO_Pin_trace]
  refine H.run_twice _ _ s (InitGPIO_Pin_clocks_enable V GPIOx GPIO_Mode) ?_
  intro c hc hclk
  rw [List.mem_singleton.mp hc] at hclk
  simp [Call.isClockCmd] at hclk

/-- `InitTIM_TimeBase` made twice leaves the peripheral state of once. -/
theorem InitTIM_TimeBase_twice {Slot : Type} [DecidableEq Slot] (H : Hardware Slot)
    (V : StdPeriph) (s : PeriphState Slot)
    (TIMx TIM_Prescaler TIM_Period TIM_CounterMode TIM_ClockDivision
      TIM_RepetitionCounter : Nat) :
    H.run (H.run s (InitTIM_TimeBase V TIMx TIM_Prescaler TIM_Period TIM_CounterMode
          TIM_ClockDivision TIM_RepetitionCounter))
        (InitTIM_TimeBase V TIMx TIM_Prescaler TIM_Period TIM_CounterMode
          TIM_ClockDivision TIM_RepetitionCounter)
      = H.run s (InitTIM_TimeBase V TIMx TIM_Prescaler TIM_Period TIM_CounterMode
          TIM_ClockDivision TIM_RepetitionCounter) := by
  unfold InitTIM_TimeBase
  rw [List.append_assoc]
  refine H.run_twice _ _ s ?_ ?_
  · intro c hc
    split_ifs at hc <;>
      first
        | exact absurd hc (List.not_mem_nil _)
        | (rw [List.mem_singleton.mp hc]; rfl)
  · intro c hc hclk
    simp only [List.mem_append, List.mem_singleton] at hc
    rcases hc with rfl | rfl <;> simp [Call.isClockCmd] at hclk

/-- `InitTIM_OC` issues no clock command. -/
theorem InitTIM_OC_no_clock (V : StdPeriph) (TIMx channel output_state oc_mode pulse
    polarity : Nat) :
    ∀ c ∈ InitTIM_OC V TIMx channel output_state oc_mode pulse polarity,
      c.isClockCmd = false := by
  intro c hc
  simp only [InitTIM_OC, List.mem_append] at hc
  rcases hc with (((h | h) | h) | h) | h
  · split_ifs at h
    · rw [List.mem_singleton.mp h]; rfl
    · exact absurd h (List.not_mem_nil _)
  · split_ifs at h
    · rw [List.mem_singleton.mp h]; rfl
    · exact absurd h (List.not_mem_nil _)
  · split_ifs at h
    · rw [List.mem_singleton.mp h]; rfl
    · exact absurd h (List.not_mem_nil _)
  · split_ifs at h
    · rw [List.mem_singleton.mp h]; rfl
    · exact absurd h (List.not_mem_nil _)
  · rw [List.mem_singleton.mp h]; rfl

/-- One line of the dispatch of `InitEXTI` issues no clock command. -/
theorem InitEXTI_route_no_clock (V : StdPeriph) (GPIO_PortSourceX Line k : Nat) :
    (InitEXTI_route V GPIO_PortSourceX Line k).all (fun c => !c.isClockCmd) = true := by
  unfold InitEXTI_route
  split_ifs <;> rfl

/-- `InitEXTI` issues no clock command. -/
theorem InitEXTI_no_clock (V : StdPeriph) (GPIO_PortSourceX Line : Nat)
    (Mode : EXTIMode_TypeDef) (Trigger : EXTITrigger_TypeDef) (LineCmd : FunctionalState) :
    ∀ c ∈ InitEXTI V GPIO_PortSourceX Line Mode Trigger LineCmd, c.isClockCmd = false := by
  have hall : (InitEXTI V GPIO_PortSourceX Line Mode Trigger LineCmd).all
      (fun c => !c.isClockCmd) = true := by
    simp only [InitEXTI, List.all_append, InitEXTI_route_no_clock, Bool.true_and]
    rfl
  intro c hc
  have := List.all_eq_true.mp hall c hc
  simpa using this

/-- The calls of `InitUSART` for one UART block: the clock of the UART, the two pin
initialisations on one port, then calls that are no clock commands.  Made twice, they
leave the peripheral state of once. -/
theorem InitUSART_block_twice {Slot : Type} [DecidableEq Slot] (H : Hardware Slot)
    (V : StdPeriph) (s : PeriphState Slot) (clock : Call) (hclock : clock.isEnableClock = true)
    (port pinTx pinRx : Nat) (rest : List Call) (hrest : ∀ c ∈ rest, c.isClockCmd = false) :
    H.run (H.run s ([clock]
          ++ InitGPIO_Pin V port pinTx GPIO_Mode_AF_PP GPIO_Speed_50MHz
          ++ InitGPIO_Pin V port pinRx GPIO_Mode_IN_FLOATING GPIO_Speed_50MHz
          ++ rest))
        ([clock]
          ++ InitGPIO_Pin V port pinTx GPIO_Mode_AF_PP GPIO_Speed_50MHz
          ++ InitGPIO_Pin V port pinRx GPIO_Mode_IN_FLOATING GPIO_Speed_50MHz
          ++ rest)
      = H.run s ([clock]
          ++ InitGPIO_Pin V port pinTx GPIO_Mode_AF_PP GPIO_Speed_50MHz
          ++ InitGPIO_Pin V port pinRx GPIO_Mode_IN_FLOATING GPIO_Speed_50MHz
          ++ rest) := by
  have hshape : [clock]
        ++ InitGPIO_Pin V port pinTx GPIO_Mode_AF_PP GPIO_Speed_50MHz
        ++ InitGPIO_Pin V port pinRx GPIO_Mode_IN_FLOATING GPIO_Speed_50MHz
        ++ rest
      = ([clock] ++ V.portClockOf port ++ [V.afioClock])
        ++ ([GPIO_Init port ⟨pinTx, GPIO_Speed_50MHz, GPIO_Mode_AF_PP⟩]
            ++ V.portClockOf port
            ++ ([GPIO_Init port ⟨pinRx, GPIO_Speed_50MHz, GPIO_Mode_IN_FLOATING⟩] ++ rest)) := by
    rw [InitGPIO_Pin_trace, InitGPIO_Pin_trace]
    simp
  rw [hshape]
  refine H.run_twice _ _ s ?_ ?_
  · intro c hc
    simp only [List.mem_append, List.mem_singleton] at hc
    rcases hc with (rfl | h) | rfl
    · exact hclock
    · exact portClockOf_enable V port c h
    · rfl
  · intro c hc hclk
    simp only [List.mem_append, List.mem_singleton] at hc
    rcases hc with (rfl | h) | (rfl | h)
    · simp [Call.isClockCmd] at hclk
    · exact List.mem_append_left _ (List.mem_append_right _ h)
    · simp [Call.isClockCmd] at hclk
    · rw [hrest c h] at hclk
      exact absurd hclk (by decide)

/-- `InitUSART` with `InitGPIO_Pin` as pin function, the three UART addresses being
pairwise distinct: made twice, it leaves the peripheral state of once. -/
theorem InitUSART_twice {Slot : Type} [DecidableEq Slot] (H : Hardware Slot) (V : StdPeriph)
    (hU : V.usarts.Nodup) (s : PeriphState Slot)
    (USARTx Mode BaudRate WordLength StopBits Parity : Nat) :
    H.run (H.run s (InitUSART V (InitGPIO_Pin V) USARTx Mode BaudRate WordLength StopBits
          Parity))
        (InitUSART V (InitGPIO_Pin V) USARTx Mode BaudRate WordLength StopBits Parity)
      = H.run s (InitUSART V (InitGPIO_Pin V) USARTx Mode BaudRate WordLength StopBits
          Parity) := by
  simp only [StdPeriph.usarts, List.nodup_cons, List.mem_cons, List.mem_singleton,
    List.not_mem_nil, not_or, or_false, List.nodup_nil, and_true, not_false_eq_true] at hU
  obtain ⟨⟨h12, h13⟩, h23⟩ := hU
  have hrest : ∀ (u : Nat) (r : USART_InitTypeDef),
      ∀ c ∈ [USART_Init u r, USART_Cmd u ENABLE], c.isClockCmd = false := by
    intro u r c hc
    simp only [List.mem_cons, List.mem_singleton, List.not_mem_nil, or_false] at hc
    rcases hc with rfl | rfl <;> rfl
  by_cases h1 : USARTx = V.USART1
  · subst h1
    have ht : InitUSART V (InitGPIO_Pin V) V.USART1 Mode BaudRate WordLength StopBits Parity
        = [RCC_APB2PeriphClockCmd V.RCC_APB2Periph_USART1 ENABLE]
          ++ InitGPIO_Pin V V.GPIOA V.GPIO_Pin_9 GPIO_Mode_AF_PP GPIO_Speed_50MHz
          ++ InitGPIO_Pin V V.GPIOA V.GPIO_Pin_10 GPIO_Mode_IN_FLOATING GPIO_Speed_50MHz
          ++ [USART_Init V.USART1
                ⟨BaudRate, WordLength, StopBits, Parity, Mode,
                  V.USART_StructInit.USART_HardwareFlowControl⟩,
              USART_Cmd V.USART1 ENABLE] := by
      simp [InitUSART, h12, h13]
    rw [ht]
    exact InitUSART_block_twice H V s _ (by rfl) _ _ _ _ (hrest _ _)
  · by_cases h2 : USARTx = V.USART2
    · subst h2
      have ht : InitUSART V (InitGPIO_Pin V) V.USART2 Mode BaudRate WordLength StopBits Parity
          = [RCC_APB1PeriphClockCmd V.RCC_APB1Periph_USART2 ENABLE]
            ++ InitGPIO_Pin V V.GPIOA V.GPIO_Pin_2 GPIO_Mode_AF_PP GPIO_Speed_50MHz
            ++ InitGPIO_Pin V V.GPIOA V.GPIO_Pin_3 GPIO_Mode_IN_FLOATING GPIO_Speed_50MHz
            ++ [USART_Init V.USART2
                  ⟨BaudRate, WordLength, StopBits, Parity, Mode,
                    V.USART_StructInit.USART_HardwareFlowControl⟩,
                USART_Cmd V.USART2 ENABLE] := by
        simp [InitUSART, Ne.symm h12, h23]
      rw [ht]
      exact InitUSART_block_twice H V s _ (by rfl) _ _ _ _ (hrest _ _)
    · by_cases h3 : USARTx = V.USART3
      · subst h3
        have ht : InitUSART V (InitGPIO_Pin V) V.USART3 Mode BaudRate WordLength StopBits
              Parity
            = [RCC_APB1PeriphClockCmd V.RCC_APB1Periph_USART3 ENABLE]
              ++ InitGPIO_Pin V V.GPIOB V.GPIO_Pin_10 GPIO_Mode_AF_PP GPIO_Speed_50MHz
              ++ InitGPIO_Pin V V.GPIOB V.GPIO_Pin_11 GPIO_Mode_IN_FLOATING GPIO_Speed_50MHz
              ++ [USART_Init V.USART3
                    ⟨BaudRate, WordLength, StopBits, Parity, Mode,
                      V.USART_StructInit.USART_HardwareFlowControl⟩,
                  USART_Cmd V.USART3 ENABLE] := by
          simp [InitUSART, Ne.symm h13, Ne.symm h23]
        rw [ht]
        exact InitUSART_block_twice H V s _ (by rfl) _ _ _ _ (hrest _ _)
      · have ht : InitUSART V (InitGPIO_Pin V) USARTx Mode BaudRate WordLength StopBits Parity
            = [USART_Init USARTx
                  ⟨BaudRate, WordLength, StopBits, Parity, Mode,
                    V.USART_StructInit.USART_HardwareFlowControl⟩,
                USART_Cmd USARTx ENABLE] := by
          simp [InitUSART, h1, h2, h3]
        rw [ht]
        exact H.run_twice_of_no_clock _ s (hrest _ _)

/-- C12. In every hardware where a configuration call takes effect only when its
peripheral responds under the current clock-enable bits, for the three UART addresses
pairwise distinct, every peripheral state `s` (clock-enable bits and applied
configuration records) and every fixed argument tuple: each of `InitGPIO_Pin`,
`InitTIM_TimeBase`, `InitTIM_OC`, `InitTIM_IC`, `InitNVICChannel`, `InitEXTI` and
`InitUSART` (with `InitGPIO_Pin` as its pin function) applied twice in succession leaves
the same peripheral state as applied once.  The calls of the second application are
those of the first: they are a function of the arguments alone. -/
theorem Init_functions_idempotent {Slot : Type} [DecidableEq Slot] (H : Hardware Slot)
    (V : StdPeriph) (hU : V.usarts.Nodup) (s : PeriphState Slot) :
    (∀ (GPIOx GPIO_Pin : Nat) (GPIO_Mode : GPIOMode_TypeDef) (GPIO_Speed : GPIOSpeed_TypeDef),
      H.run (H.run s (InitGPIO_Pin V GPIOx GPIO_Pin GPIO_Mode GPIO_Speed))
          (InitGPIO_Pin V GPIOx GPIO_Pin GPIO_Mode GPIO_Speed)
        = H.run s (InitGPIO_Pin V GPIOx GPIO_Pin GPIO_Mode GPIO_Speed))
    ∧ (∀ TIMx TIM_Prescaler TIM_Period TIM_CounterMode TIM_ClockDivision
          TIM_RepetitionCounter : Nat,
      H.run (H.run s (InitTIM_TimeBase V TIMx TIM_Prescaler TIM_Period TIM_CounterMode
            TIM_ClockDivision TIM_RepetitionCounter))
          (InitTIM_TimeBase V TIMx TIM_Prescaler TIM_Period TIM_CounterMode
            TIM_ClockDivision TIM_RepetitionCounter)
        = H.run s (InitTIM_TimeBase V TIMx TIM_Prescaler TIM_Period TIM_CounterMode
            TIM_ClockDivision TIM_RepetitionCounter))
    ∧ (∀ TIMx channel output_state oc_mode pulse polarity : Nat,
      H.run (H.run s (InitTIM_OC V TIMx channel output_state oc_mode pulse polarity))
          (InitTIM_OC V TIMx channel output_state oc_mode pulse polarity)
        = H.run s (InitTIM_OC V TIMx channel output_state oc_mode pulse polarity))
    ∧ (∀ TIMx channel selection prescaler filter polarity : Nat,
      H.run (H.run s (InitTIM_IC V TIMx channel selection prescaler filter polarity))
          (InitTIM_IC V TIMx channel selection prescaler filter polarity)
        = H.run s (InitTIM_IC V TIMx channel selection prescaler filter polarity))
    ∧ (∀ (NVIC_Channel NVIC_PreemptionPriority NVIC_SubPriority : Nat)
          (NVIC_ChannelCmd : FunctionalState),
      H.run (H.run s (InitNVICChannel NVIC_Channel NVIC_PreemptionPriority NVIC_SubPriority
            NVIC_ChannelCmd))
          (InitNVICChannel NVIC_Channel NVIC_PreemptionPriority NVIC_SubPriority
            NVIC_ChannelCmd)
        = H.run s (InitNVICChannel NVIC_Channel NVIC_PreemptionPriority NVIC_SubPriority
            NVIC_ChannelCmd))
    ∧ (∀ (GPIO_PortSourceX Line : Nat) (Mode : EXTIMode_TypeDef)
          (Trigger : EXTITrigger_TypeDef) (LineCmd : FunctionalState),
      H.run (H.run s (InitEXTI V GPIO_PortSourceX Line Mode Trigger LineCmd))
          (InitEXTI V GPIO_PortSourceX Line Mode Trigger LineCmd)
        = H.run s (InitEXTI V GPIO_PortSourceX Line Mode Trigger LineCmd))
    ∧ (∀ USARTx Mode BaudRate WordLength StopBits Parity : Nat,
      H.run (H.run s (InitUSART V (InitGPIO_Pin V) USARTx Mode BaudRate WordLength StopBits
            Parity))
          (InitUSART V (InitGPIO_Pin V) USARTx Mode BaudRate WordLength StopBits Parity)
        = H.run s (InitUSART V (InitGPIO_Pin V) USARTx Mode BaudRate WordLength StopBits
            Parity)) := by
  refine ⟨fun GPIOx GPIO_Pin GPIO_Mode GPIO_Speed =>
      InitGPIO_Pin_twice H V s GPIOx GPIO_Pin GPIO_Mode GPIO_Speed,
    fun TIMx a b c d e => InitTIM_TimeBase_twice H V s TIMx a b c d e,
    fun TIMx a b c d e => H.run_twice_of_no_clock _ s (InitTIM_OC_no_clock V TIMx a b c d e),
    fun TIMx a b c d e => H.run_twice_of_no_clock _ s ?_,
    fun a b c d => H.run_twice_of_no_clock _ s ?_,
    fun p l m t c => H.run_twice_of_no_clock _ s (InitEXTI_no_clock V p l m t c),
    fun u a b c d e => InitUSART_twice H V hU s u a b c d e⟩
  · intro x hx
    simp only [InitTIM_IC, List.mem_cons, List.mem_singleton, List.not_mem_nil, or_false] at hx
    rcases hx with rfl | rfl <;> rfl
  · intro x hx
    simp only [InitNVICChannel, List.mem_singleton] at hx
    rw [hx]
    rfl


/-! ## Instances at the values of the peripheral library -/

/-- Instance of C1: GPIOC, pin 5, alternate-function push-pull, 50 MHz. -/
theorem InitGPIO_Pin_enables_own_port_clock_witness :
    (stm32f10x.ports.map Prod.fst).Nodup
    ∧ ( stm32f10x.RCC_APB2Periph_AFIO :: stm32f10x.ports.map Prod.snd).Nodup
    ∧ ((0x40011000, 0x10) ∈ stm32f10x.ports)
    ∧ InitGPIO_Pin stm32f10x 0x40011000 0x20 GPIO_Mode_AF_PP GPIO_Speed_50MHz
        = [RCC_APB2PeriphClockCmd 0x10 ENABLE, RCC_APB2PeriphClockCmd 0x1 ENABLE,
           GPIO_Init 0x40011000 ⟨0x20, GPIO_Speed_50MHz, GPIO_Mode_AF_PP⟩] :=
  ⟨by decide, by decide, by decide,
    (InitGPIO_Pin_enables_own_port_clock stm32f10x (by decide) (by decide) 0x40011000 0x10
      (by decide) 0x20 GPIO_Mode_AF_PP GPIO_Speed_50MHz).1⟩

/-- Instance of C2: GPIOB, pin 10, 50 MHz: open-drain alternate function, and
push-pull output. -/
theorem InitGPIO_Pin_afio_clock_iff_witness :
    stm32f10x.afioClock ∉ stm32f10x.portClocks
    ∧ InitGPIO_Pin stm32f10x 0x40010C00 0x0400 GPIO_Mode_AF_OD GPIO_Speed_50MHz
        = [RCC_APB2PeriphClockCmd 0x8 ENABLE, RCC_APB2PeriphClockCmd 0x1 ENABLE,
           GPIO_Init 0x40010C00 ⟨0x0400, GPIO_Speed_50MHz, GPIO_Mode_AF_OD⟩]
    ∧ (InitGPIO_Pin stm32f10x 0x40010C00 0x0400 GPIO_Mode_Out_PP
          GPIO_Speed_50MHz).filter Call.isClockCmd
        = [RCC_APB2PeriphClockCmd 0x8 ENABLE] :=
  ⟨by decide,
    (InitGPIO_Pin_afio_clock_iff stm32f10x (by decide) 0x40010C00 0x0400 GPIO_Mode_AF_OD
      GPIO_Speed_50MHz).1,
    ((InitGPIO_Pin_afio_clock_iff stm32f10x (by decide) 0x40010C00 0x0400 GPIO_Mode_AF_OD
      GPIO_Speed_50MHz).2.2.2.2.2 GPIO_Mode_Out_PP (by decide)).2⟩

/-- Instance of C3: TIM4 with prescaler 71 and period 999. -/
theorem InitTIM_TimeBase_enables_own_timer_clock_witness :
    (stm32f10x.timers.map Prod.fst).Nodup
    ∧ (stm32f10x.timers.map Prod.snd).Nodup
    ∧ (0x40000800, RCC_APB1PeriphClockCmd 0x4 ENABLE) ∈ stm32f10x.timers
    ∧ (InitTIM_TimeBase stm32f10x 0x40000800 71 999 0 0 0).filter Call.isClockCmd
        = [RCC_APB1PeriphClockCmd 0x4 ENABLE]
    ∧ ∀ q ∈ stm32f10x.timers, q.1 ≠ 0x40000800 →
        q.2 ∉ InitTIM_TimeBase stm32f10x 0x40000800 71 999 0 0 0 :=
  ⟨by decide, by decide, by decide,
    InitTIM_TimeBase_enables_own_timer_clock stm32f10x (by decide) (by decide) 0x40000800
      (RCC_APB1PeriphClockCmd 0x4 ENABLE) (by decide) 71 999 0 0 0⟩

/-- Instance of C6: USART2 at 115200 baud, `InitGPIO_Pin` as pin function: pins A2 and
A3. -/
theorem InitUSART_clock_and_pins_witness :
    stm32f10x.usarts.Nodup
    ∧ (InitUSART stm32f10x (InitGPIO_Pin stm32f10x) stm32f10x.USART2 0x000C 115200 0 0
          0).filterMap Call.gpioInit?
        = [(stm32f10x.GPIOA, ⟨stm32f10x.GPIO_Pin_2, GPIO_Speed_50MHz, GPIO_Mode_AF_PP⟩),
           (stm32f10x.GPIOA, ⟨stm32f10x.GPIO_Pin_3, GPIO_Speed_50MHz,
              GPIO_Mode_IN_FLOATING⟩)] :=
  ⟨by decide, (InitUSART_clock_and_pins stm32f10x (by decide) 0x000C 115200 0 0 0).2.2.1⟩

/-- Instance of C9: line 7 on port source 1, interrupt mode, falling edge, enabled. -/
theorem InitEXTI_routes_and_configures_same_line_witness :
    stm32f10x.lines.Nodup
    ∧ 7 < 16
    ∧ InitEXTI stm32f10x 1 (stm32f10x.EXTI_Line 7) EXTIMode_TypeDef.EXTI_Mode_Interrupt
          EXTITrigger_TypeDef.EXTI_Trigger_Falling ENABLE
        = [GPIO_EXTILineConfig 1 (stm32f10x.GPIO_PinSource 7),
           EXTI_Init
             { EXTI_Line := stm32f10x.EXTI_Line 7
               EXTI_Mode := EXTIMode_TypeDef.EXTI_Mode_Interrupt
               EXTI_Trigger := EXTITrigger_TypeDef.EXTI_Trigger_Falling
               EXTI_LineCmd := ENABLE }] :=
  ⟨by decide, by decide,
    InitEXTI_routes_and_configures_same_line stm32f10x (by decide) 7 (by decide) 1
      EXTIMode_TypeDef.EXTI_Mode_Interrupt EXTITrigger_TypeDef.EXTI_Trigger_Falling ENABLE⟩

/-- Instance of C10: GPIOF (0x40011C00), TIM6 (0x40001000) and UART4 (0x40004C00),
none of which is mapped. -/
theorem unmapped_identity_skips_clock_only_witness :
    0x40011C00 ∉ stm32f10x.ports.map Prod.fst
    ∧ 0x40001000 ∉ stm32f10x.timers.map Prod.fst
    ∧ 0x40004C00 ∉ stm32f10x.usarts
    ∧ InitGPIO_Pin stm32f10x 0x40011C00 0x0001 GPIO_Mode_Out_PP GPIO_Speed_50MHz
        = [GPIO_Init 0x40011C00 ⟨0x0001, GPIO_Speed_50MHz, GPIO_Mode_Out_PP⟩]
    ∧ InitTIM_TimeBase stm32f10x 0x40001000 9 999 0 0 0
        = [TIM_TimeBaseInit 0x40001000 ⟨9, 0, 999, 0, 0⟩, TIM_Cmd 0x40001000 ENABLE]
    ∧ InitUSART stm32f10x (InitGPIO_Pin stm32f10x) 0x40004C00 0x000C 9600 0 0 0
        = [USART_Init 0x40004C00 ⟨9600, 0, 0, 0, 0x000C, 0⟩, USART_Cmd 0x40004C00 ENABLE] :=
  ⟨by decide, by decide, by decide,
    unmapped_identity_skips_clock_only stm32f10x (InitGPIO_Pin stm32f10x) 0x40011C00
      0x40001000 0x40004C00 (by decide) (by decide) (by decide) 0x0001 GPIO_Mode_Out_PP
      GPIO_Speed_50MHz 9 999 0 0 0 0x000C 9600 0 0 0⟩

/-- Instance of C11: channel 3 (`0x0008`) of TIM3, PWM1 with pulse 500. -/
theorem InitTIM_OC_applies_own_channel_witness :
    stm32f10x.channels.Nodup
    ∧ InitTIM_OC stm32f10x 0x40000400 stm32f10x.TIM_Channel_3 1 0x60 500 0
        = [TIM_OC3Init 0x40000400 (InitTIM_OC_record stm32f10x 1 0x60 500 0),
           TIM_Cmd 0x40000400 ENABLE] :=
  ⟨by decide,
    (InitTIM_OC_applies_own_channel stm32f10x (by decide) 0x40000400 1 0x60 500 0).1.2.2.1⟩

/-- Instance of C14: the mask `EXTI_Line0 | EXTI_Line1` (3) on port source 0 is not
routed and is applied as line value 3. -/
theorem InitEXTI_unlisted_line_not_routed_witness :
    stm32f10x.lines.Nodup
    ∧ 3 ∉ stm32f10x.lines
    ∧ InitEXTI stm32f10x 0 3 EXTIMode_TypeDef.EXTI_Mode_Interrupt
          EXTITrigger_TypeDef.EXTI_Trigger_Rising ENABLE
        = [EXTI_Init
             { EXTI_Line := 3
               EXTI_Mode := EXTIMode_TypeDef.EXTI_Mode_Interrupt
               EXTI_Trigger := EXTITrigger_TypeDef.EXTI_Trigger_Rising
               EXTI_LineCmd := ENABLE }] :=
  ⟨by decide, by decide,
    (InitEXTI_unlisted_line_not_routed stm32f10x (by decide) 0 3 (by decide)
      EXTIMode_TypeDef.EXTI_Mode_Interrupt EXTITrigger_TypeDef.EXTI_Trigger_Rising ENABLE).1⟩

/-- Instance of C12 in the hardware where the five ports are clock-gated: from the
reset state, `InitGPIO_Pin` on GPIOC pin 5 (alternate function push-pull, 50 MHz)
enables the GPIOC and AFIO clock bits and applies the pin record, and a second
application leaves the same state. -/
theorem Init_functions_idempotent_witness :
    stm32f10x.usarts.Nodup
    ∧ (stm32f10x.gatedPorts.run PeriphState.reset
        (InitGPIO_Pin stm32f10x 0x40011000 0x20 GPIO_Mode_AF_PP GPIO_Speed_50MHz)).APB2ENR
        = 0x11
    ∧ (stm32f10x.gatedPorts.run PeriphState.reset
        (InitGPIO_Pin stm32f10x 0x40011000 0x20 GPIO_Mode_AF_PP GPIO_Speed_50MHz)).applied
          (1, 0x40011000)
        = some (GPIO_Init 0x40011000 ⟨0x20, GPIO_Speed_50MHz, GPIO_Mode_AF_PP⟩)
    ∧ stm32f10x.gatedPorts.run
        (stm32f10x.gatedPorts.run PeriphState.reset
          (InitGPIO_Pin stm32f10x 0x40011000 0x20 GPIO_Mode_AF_PP GPIO_Speed_50MHz))
        (InitGPIO_Pin stm32f10x 0x40011000 0x20 GPIO_Mode_AF_PP GPIO_Speed_50MHz)
      = stm32f10x.gatedPorts.run PeriphState.reset
          (InitGPIO_Pin stm32f10x 0x40011000 0x20 GPIO_Mode_AF_PP GPIO_Speed_50MHz) :=
  ⟨by decide, by decide, by decide,
    (Init_functions_idempotent stm32f10x.gatedPorts stm32f10x (by decide)
      PeriphState.reset).1 0x40011000 0x20 GPIO_Mode_AF_PP GPIO_Speed_50MHz⟩

/-- The order of the calls matters in the clock-gated hardware: `GPIO_Init` on GPIOC
made before the clock-enable call of GPIOC is not idempotent.  From the reset state
one application applies no record (the port does not respond yet), a second one does. -/
theorem config_before_clock_not_idempotent :
    (stm32f10x.gatedPorts.run PeriphState.reset
        [GPIO_Init 0x40011000 ⟨0x20, GPIO_Speed_50MHz, GPIO_Mode_Out_PP⟩,
         RCC_APB2PeriphClockCmd 0x10 ENABLE]).applied (1, 0x40011000)
      = none
    ∧ (stm32f10x.gatedPorts.run
        (stm32f10x.gatedPorts.run PeriphState.reset
          [GPIO_Init 0x40011000 ⟨0x20, GPIO_Speed_50MHz, GPIO_Mode_Out_PP⟩,
           RCC_APB2PeriphClockCmd 0x10 ENABLE])
        [GPIO_Init 0x40011000 ⟨0x20, GPIO_Speed_50MHz, GPIO_Mode_Out_PP⟩,
         RCC_APB2PeriphClockCmd 0x10 ENABLE]).applied (1, 0x40011000)
      = some (GPIO_Init 0x40011000 ⟨0x20, GPIO_Speed_50MHz, GPIO_Mode_Out_PP⟩) := by
  constructor <;> decide


end Eurobot
